import Mathlib

/-!
# fs.c : raw FAT / NTFS image inspector

A shallow embedding of `src/fs.c` and the properties of its offset arithmetic,
its reads and its one write.

Conventions of the embedding (the C implementation the program is read against
is the usual little-endian LP64 one: `int` and `unsigned` are 32 bits wide,
`long`, `size_t` and `uint64_t` are 64 bits wide, `__attribute__((packed))`
removes all padding):

* a C object is its object representation, a list of bytes; a member of a packed
  struct is read at the sum of the sizes of the members declared before it and
  assembled least-significant byte first;
* machine integers are natural numbers, reduced `% 2 ^ 32` or `% 2 ^ 64` at
  every operation that C performs in an unsigned type of that width;
* the disk image is a byte sequence with a file position; every `fseek`,
  `fread` and `fwrite` issued on it is appended to the stream's call history,
  so that "the offset the function seeks to" is an observable of a run;
* `handle_error` ends the run: a run either returns or exits with the message
  given to `perror`;
* `malloc` is an allocator parameter that says, for every size, whether the
  request is granted.
-/

namespace Fs

/-! ## Constants (`#define`s of fs.c) -/

/-- Constant `SECTOR_SIZE`. -/
def SECTOR_SIZE : Nat := 512

/-- Constant `ROOT_DIR_ENTRIES`. -/
def ROOT_DIR_ENTRIES : Nat := 512

/-- Constant `NTFS_MFT_SIZE`. -/
def NTFS_MFT_SIZE : Nat := 4096

/-- Constant `NTFS_CLUSTER_SIZE`. -/
def NTFS_CLUSTER_SIZE : Nat := 4096

/-- Constant `NTFS_MFT_RECORD_SIZE`. -/
def NTFS_MFT_RECORD_SIZE : Nat := 1024

/-! ## Machine integers -/

/-- Result of an operation carried out in `uint32_t` / `unsigned int`. -/
def u32 (n : Nat) : Nat := n % 2 ^ 32

/-- Result of an operation carried out in `uint64_t`. -/
def u64 (n : Nat) : Nat := n % 2 ^ 64

/-- Subtraction `a - b` of two values in `uint32_t`. -/
def u32_sub (a b : Nat) : Nat := (u32 a + 2 ^ 32 - u32 b) % 2 ^ 32

/-- Conversion of a `uint32_t` to the 64-bit `long` that `fseek` takes: the value is kept. -/
def long_of_u32 (n : Nat) : Int := Int.ofNat (u32 n)

/-- Conversion of a `uint64_t` to the 64-bit `long` that `fseek` takes: values from
`2 ^ 63` on become negative. -/
def long_of_u64 (n : Nat) : Int :=
  if u64 n < 2 ^ 63 then Int.ofNat (u64 n) else Int.ofNat (u64 n) - 2 ^ 64

/-! ## Packed structs as byte layouts -/

/-- Members of a packed struct, in declaration order, each with its size in bytes. -/
abbrev Layout := List (String × Nat)

/-- Size of a packed struct: the sizes of its members added up. -/
def sizeof : Layout → Nat
  | [] => 0
  | (_, sz) :: rest => sz + sizeof rest

/-- Byte offset of a member of a packed struct: the sizes of the members before it. -/
def offsetof : Layout → String → Nat
  | [], _ => 0
  | (n, sz) :: rest, name => if n = name then 0 else sz + offsetof rest name

/-- Size in bytes of a member of a packed struct. -/
def member_size : Layout → String → Nat
  | [], _ => 0
  | (n, sz) :: rest, name => if n = name then sz else member_size rest name

/-- Value of an unsigned integer stored least-significant byte first. -/
def le_bytes : List UInt8 → Nat
  | [] => 0
  | b :: rest => b.toNat + 256 * le_bytes rest

/-- Bytes of a member inside an object representation. -/
def member_bytes (l : Layout) (name : String) (obj : List UInt8) : List UInt8 :=
  (obj.drop (offsetof l name)).take (member_size l name)

/-- Integer member of a packed struct, as the little-endian host reads it. -/
def member (l : Layout) (name : String) (obj : List UInt8) : Nat :=
  le_bytes (member_bytes l name obj)

/-- Layout of `FAT_BootSector` (fs.c lines 17-46). -/
def FAT_BootSector_members : Layout :=
  [("jump", 3), ("oem_id", 8), ("bytes_per_sector", 2), ("sectors_per_cluster", 1),
   ("reserved_sectors", 2), ("fat_count", 1), ("root_entries", 2), ("total_sectors", 2),
   ("media_descriptor", 1), ("fat_size", 2), ("sectors_per_track", 2), ("heads", 2),
   ("hidden_sectors", 4), ("total_sectors_large", 4), ("fat_size_large", 4), ("flags", 2),
   ("version", 2), ("root_cluster", 4), ("fsinfo_sectors", 2), ("backup_boot_sector", 2),
   ("reserved", 12), ("drive_number", 1), ("reserved1", 1), ("boot_signature", 1),
   ("volume_id", 4), ("volume_label", 11), ("file_system_type", 8)]

/-- Layout of `FAT_DirEntry` (fs.c lines 48-63). -/
def FAT_DirEntry_members : Layout :=
  [("filename", 8), ("extension", 3), ("attributes", 1), ("reserved", 1),
   ("creation_time_tenth", 1), ("creation_time", 2), ("creation_date", 2),
   ("last_access_date", 2), ("high_cluster", 2), ("last_modification_time", 2),
   ("last_modification_date", 2), ("low_cluster", 2), ("file_size", 4)]

/-- Layout of `NTFS_BootSector` (fs.c lines 84-113). -/
def NTFS_BootSector_members : Layout :=
  [("jump", 3), ("oem_id", 8), ("bytes_per_sector", 2), ("sectors_per_cluster", 1),
   ("reserved_sectors", 2), ("zero1", 1), ("zero2", 1), ("zero3", 2),
   ("media_descriptor", 1), ("sectors_per_fat", 2), ("sectors_per_track", 2), ("heads", 2),
   ("hidden_sectors", 4), ("total_sectors", 4), ("sectors_per_fat_large", 4), ("flags", 2),
   ("version", 2), ("root_cluster", 4), ("fs_info", 2), ("backup_boot_sector", 2),
   ("reserved", 12), ("drive_number", 1), ("reserved1", 1), ("boot_signature", 1),
   ("volume_id", 4), ("volume_label", 11), ("file_system_type", 8)]

/-- Layout of `NTFS_MFT_Entry` (fs.c lines 115-128). -/
def NTFS_MFT_Entry_members : Layout :=
  [("magic", 4), ("update_sequence_offset", 2), ("update_sequence_size", 2),
   ("log_file_start", 8), ("sequence_number", 8), ("log_file_seq_number", 8),
   ("volume_flags", 4), ("max_component_name_length", 4), ("file_system_attributes", 4),
   ("root_directory_start", 8), ("data_file_start", 8)]

/-- A `FAT_BootSector` object: the bytes `fread` stored into it. -/
structure FAT_BootSector where
  raw : List UInt8
deriving DecidableEq, Repr

/-- A `FAT_DirEntry` object: the bytes of one directory record. -/
structure FAT_DirEntry where
  raw : List UInt8
deriving DecidableEq, Repr

/-- An `NTFS_BootSector` object. -/
structure NTFS_BootSector where
  raw : List UInt8
deriving DecidableEq, Repr

/-- An `NTFS_MFT_Entry` object. -/
structure NTFS_MFT_Entry where
  raw : List UInt8
deriving DecidableEq, Repr

/-- Member `bytes_per_sector` of the FAT boot sector. -/
def FAT_BootSector.bytes_per_sector (b : FAT_BootSector) : Nat :=
  member FAT_BootSector_members "bytes_per_sector" b.raw

/-- Member `sectors_per_cluster` of the FAT boot sector. -/
def FAT_BootSector.sectors_per_cluster (b : FAT_BootSector) : Nat :=
  member FAT_BootSector_members "sectors_per_cluster" b.raw

/-- Member `reserved_sectors` of the FAT boot sector. -/
def FAT_BootSector.reserved_sectors (b : FAT_BootSector) : Nat :=
  member FAT_BootSector_members "reserved_sectors" b.raw

/-- Member `fat_count` of the FAT boot sector. -/
def FAT_BootSector.fat_count (b : FAT_BootSector) : Nat :=
  member FAT_BootSector_members "fat_count" b.raw

/-- Member `root_entries` of the FAT boot sector. -/
def FAT_BootSector.root_entries (b : FAT_BootSector) : Nat :=
  member FAT_BootSector_members "root_entries" b.raw

/-- Member `fat_size_large` of the FAT boot sector. -/
def FAT_BootSector.fat_size_large (b : FAT_BootSector) : Nat :=
  member FAT_BootSector_members "fat_size_large" b.raw

/-- Member `volume_id` of the FAT boot sector. -/
def FAT_BootSector.volume_id (b : FAT_BootSector) : Nat :=
  member FAT_BootSector_members "volume_id" b.raw

/-- Member `filename` of a directory entry (an array of 8 `char`). -/
def FAT_DirEntry.filename (e : FAT_DirEntry) : List UInt8 :=
  member_bytes FAT_DirEntry_members "filename" e.raw

/-- Member `extension` of a directory entry (an array of 3 `char`). -/
def FAT_DirEntry.extension (e : FAT_DirEntry) : List UInt8 :=
  member_bytes FAT_DirEntry_members "extension" e.raw

/-- Member `attributes` of a directory entry. -/
def FAT_DirEntry.attributes (e : FAT_DirEntry) : Nat :=
  member FAT_DirEntry_members "attributes" e.raw

/-- Member `creation_date` of a directory entry. -/
def FAT_DirEntry.creation_date (e : FAT_DirEntry) : Nat :=
  member FAT_DirEntry_members "creation_date" e.raw

/-- Member `high_cluster` of a directory entry. -/
def FAT_DirEntry.high_cluster (e : FAT_DirEntry) : Nat :=
  member FAT_DirEntry_members "high_cluster" e.raw

/-- Member `last_modification_date` of a directory entry. -/
def FAT_DirEntry.last_modification_date (e : FAT_DirEntry) : Nat :=
  member FAT_DirEntry_members "last_modification_date" e.raw

/-- Member `low_cluster` of a directory entry. -/
def FAT_DirEntry.low_cluster (e : FAT_DirEntry) : Nat :=
  member FAT_DirEntry_members "low_cluster" e.raw

/-- Member `file_size` of a directory entry. -/
def FAT_DirEntry.file_size (e : FAT_DirEntry) : Nat :=
  member FAT_DirEntry_members "file_size" e.raw

/-- Member `bytes_per_sector` of the NTFS boot sector. -/
def NTFS_BootSector.bytes_per_sector (b : NTFS_BootSector) : Nat :=
  member NTFS_BootSector_members "bytes_per_sector" b.raw

/-- Member `reserved_sectors` of the NTFS boot sector. -/
def NTFS_BootSector.reserved_sectors (b : NTFS_BootSector) : Nat :=
  member NTFS_BootSector_members "reserved_sectors" b.raw

/-- The struct `FAT_FS` (fs.c lines 72-81). A pointer member is `none` while it is NULL. -/
structure FAT_FS where
  boot_sector : FAT_BootSector
  root_dir : Option (List FAT_DirEntry)
  fat : Option (List UInt8)
  data_area : Option (List UInt8)
  fat_size : Nat
  root_dir_start : Nat
  data_area_start : Nat
deriving DecidableEq, Repr

/-- The struct `NTFS_FS` (fs.c lines 130-137). -/
structure NTFS_FS where
  boot_sector : NTFS_BootSector
  mft : Option (List UInt8)
  data_area : Option (List UInt8)
  mft_size : Nat
  data_area_size : Nat
deriving DecidableEq, Repr

/-! ## The C library: streams and the allocator -/

/-- A call made on the disk stream. -/
inductive Call where
  | fseek (offset : Int)
  | fread (size nmemb : Nat)
  | fwrite (size nmemb : Nat)
deriving DecidableEq, Repr

/-- The stream `FILE *disk`: the image, the file position, and the calls made so far
(oldest first). -/
structure FILE where
  content : List UInt8
  pos : Nat
  calls : List Call
deriving DecidableEq, Repr

/-- How a run of a function of fs.c ends: it returns, or `handle_error` ends the
process with the message it was given. -/
inductive Outcome (α : Type) where
  | returned (disk : FILE) (value : α)
  | exited (disk : FILE) (message : String)
deriving DecidableEq, Repr

/-- Stream as the run left it. -/
def Outcome.disk {α : Type} : Outcome α → FILE
  | .returned d _ => d
  | .exited d _ => d

/-- Offsets of the `fseek` calls of a call history, in order. -/
def seeks : List Call → List Int
  | [] => []
  | Call.fseek off :: rest => off :: seeks rest
  | _ :: rest => seeks rest

/-- The function `handle_error` (fs.c lines 140-144): `perror(message); exit(EXIT_FAILURE)`. -/
def handle_error {α : Type} (disk : FILE) (message : String) : Outcome α :=
  Outcome.exited disk message

/-- The allocator: `alloc n` is true when `malloc(n)` returns a non-NULL pointer. -/
structure Heap where
  alloc : Nat → Bool

/-- Library `malloc(size)`: true for a non-NULL result. -/
def malloc (heap : Heap) (size : Nat) : Bool := heap.alloc size

/-- Library `fseek(stream, offset, SEEK_SET)`: fails with -1 on a negative offset,
otherwise moves the position (also past the end of the file) and gives 0. -/
def fseek (stream : FILE) (offset : Int) : Int × FILE :=
  let stream := { stream with calls := stream.calls ++ [Call.fseek offset] }
  if offset < 0 then (-1, stream) else (0, { stream with pos := offset.toNat })

/-- Library `fread(ptr, size, nmemb, stream)`: the bytes stored, the number of complete
items read (0 when `size` is 0), and the stream afterwards. -/
def fread (size nmemb : Nat) (stream : FILE) : List UInt8 × Nat × FILE :=
  let data := (stream.content.drop stream.pos).take (size * nmemb)
  (data, if size = 0 then 0 else data.length / size,
   { stream with pos := stream.pos + data.length,
                 calls := stream.calls ++ [Call.fread size nmemb] })

/-- Library `fwrite(ptr, size, nmemb, stream)`: the bytes replace what the image held at
the position (a gap past the old end reads as zero; a write of no bytes leaves the image
as it is); the number of complete items written (0 when `size` is 0) and the stream
afterwards. -/
def fwrite (ptr : List UInt8) (size nmemb : Nat) (stream : FILE) : Nat × FILE :=
  let data := ptr.take (size * nmemb)
  let old := stream.content ++ List.replicate (stream.pos - stream.content.length) 0
  let content := if data.length = 0 then stream.content
    else old.take stream.pos ++ data ++ old.drop (stream.pos + data.length)
  (if size = 0 then 0 else data.length / size,
   { content := content,
     pos := stream.pos + data.length,
     calls := stream.calls ++ [Call.fwrite size nmemb] })

/-- An array of structs filled by one `fread`: the bytes cut into objects of `size` bytes. -/
def objects (size : Nat) : Nat → List UInt8 → List (List UInt8)
  | 0, _ => []
  | n + 1, bytes => bytes.take size :: objects size n (bytes.drop size)

/-! ## Console output -/

/-- An argument handed to `printf`. -/
inductive Arg where
  | str (bytes : List UInt8)
  | uint (n : Nat)
deriving DecidableEq, Repr

/-- One `printf` call: the format string and its arguments. -/
structure Printf where
  format : String
  args : List Arg
deriving DecidableEq, Repr

/-- Body of the loop of `print_fat_root_directory` after the sentinel test
(fs.c lines 168-172): the five `printf` calls made for one entry. -/
def print_entry (entry : FAT_DirEntry) : List Printf :=
  [⟨"Filename: %.8s.%.3s\n", [Arg.str entry.filename, Arg.str entry.extension]⟩,
   ⟨"File Size: %u\n", [Arg.uint entry.file_size]⟩,
   ⟨"Attributes: %02X\n", [Arg.uint entry.attributes]⟩,
   ⟨"Creation Date: %04X\n", [Arg.uint entry.creation_date]⟩,
   ⟨"Last Modification Date: %04X\n", [Arg.uint entry.last_modification_date]⟩]

/-- Expression `entry->filename[0]`. -/
def FAT_DirEntry.filename0 (entry : FAT_DirEntry) : UInt8 :=
  entry.filename.getD 0 0

/-- The loop of `print_fat_root_directory` (fs.c lines 163-173) from index `i` on, with
`n` iterations left before `i < ROOT_DIR_ENTRIES` fails. The result is the console output
so far; `none` stands for a read outside the array `root_dir`. -/
def print_fat_root_directory_loop (root_dir : List FAT_DirEntry) :
    Nat → Nat → List Printf → Option (List Printf)
  | 0, _, out => some out
  | n + 1, i, out =>
    match root_dir.get? i with
    | none => none
    | some entry =>
      if entry.filename0 = 0x00 then some out
      else print_fat_root_directory_loop root_dir n (i + 1) (out ++ print_entry entry)

/-- The function `print_fat_root_directory` (fs.c lines 161-174), started on the console
output `out`. -/
def print_fat_root_directory (root_dir : List FAT_DirEntry) (out : List Printf) :
    Option (List Printf) :=
  print_fat_root_directory_loop root_dir ROOT_DIR_ENTRIES 0 out

/-! ## FAT functions -/

/-- The function `read_fat_boot_sector` (fs.c lines 197-203). -/
def read_fat_boot_sector (disk : FILE) (fs : FAT_FS) : Outcome FAT_FS :=
  match fseek disk 0 with
  | (r, disk) =>
    if r ≠ 0 then handle_error disk "Error seeking to boot sector" else
    match fread (sizeof FAT_BootSector_members) 1 disk with
    | (buf, n, disk) =>
      if n ≠ 1 then handle_error disk "Error reading boot sector" else
      Outcome.returned disk { fs with boot_sector := ⟨buf⟩ }

/-- Right-hand side of the assignment to `fs->fat_size` in `read_fat_fat` (fs.c line 207),
a `uint32_t`: `fs->boot_sector.fat_size_large * SECTOR_SIZE`. -/
def fat_size_value (b : FAT_BootSector) : Nat :=
  u32 (b.fat_size_large * SECTOR_SIZE)

/-- First argument of the `fseek` of `read_fat_fat` (fs.c line 211), an `int`:
`fs->boot_sector.reserved_sectors * SECTOR_SIZE`. -/
def fat_start_value (b : FAT_BootSector) : Nat :=
  b.reserved_sectors * SECTOR_SIZE

/-- The function `read_fat_fat` (fs.c lines 205-215). -/
def read_fat_fat (heap : Heap) (disk : FILE) (fs : FAT_FS) : Outcome FAT_FS :=
  let fs := { fs with fat_size := fat_size_value fs.boot_sector }
  if malloc heap fs.fat_size = false then
    handle_error disk "Memory allocation failed for FAT" else
  match fseek disk (Int.ofNat (fat_start_value fs.boot_sector)) with
  | (r, disk) =>
    if r ≠ 0 then handle_error disk "Error seeking to FAT" else
    match fread fs.fat_size 1 disk with
    | (buf, n, disk) =>
      if n ≠ 1 then handle_error disk "Error reading FAT" else
      Outcome.returned disk { fs with fat := some buf }

/-- Right-hand side of the assignment to `fs->root_dir_start` in `read_fat_root_directory`
(fs.c line 219), a `uint32_t`: `(fs->boot_sector.reserved_sectors
+ fs->boot_sector.fat_size_large * fs->boot_sector.fat_count) * SECTOR_SIZE`. -/
def root_dir_start_value (b : FAT_BootSector) : Nat :=
  u32 (u32 (b.reserved_sectors + u32 (b.fat_size_large * b.fat_count)) * SECTOR_SIZE)

/-- The function `read_fat_root_directory` (fs.c lines 217-227). -/
def read_fat_root_directory (heap : Heap) (disk : FILE) (fs : FAT_FS) : Outcome FAT_FS :=
  let fs := { fs with root_dir_start := root_dir_start_value fs.boot_sector }
  if malloc heap (ROOT_DIR_ENTRIES * sizeof FAT_DirEntry_members) = false then
    handle_error disk "Memory allocation failed for root directory" else
  match fseek disk (long_of_u32 fs.root_dir_start) with
  | (r, disk) =>
    if r ≠ 0 then handle_error disk "Error seeking to root directory" else
    match fread (ROOT_DIR_ENTRIES * sizeof FAT_DirEntry_members) 1 disk with
    | (buf, n, disk) =>
      if n ≠ 1 then handle_error disk "Error reading root directory" else
      let root_dir := (objects (sizeof FAT_DirEntry_members) ROOT_DIR_ENTRIES buf).map
        FAT_DirEntry.mk
      Outcome.returned disk { fs with root_dir := some root_dir }

/-- Right-hand side of the assignment to `fs->data_area_start` in `read_fat_data_area`
(fs.c line 231), stored in a `uint32_t`:
`fs->root_dir_start + ROOT_DIR_ENTRIES * sizeof(FAT_DirEntry)`. -/
def data_area_start_value (fs : FAT_FS) : Nat :=
  u32 (fs.root_dir_start + ROOT_DIR_ENTRIES * sizeof FAT_DirEntry_members)

/-- The function `read_fat_data_area` (fs.c lines 229-239). -/
def read_fat_data_area (heap : Heap) (disk : FILE) (fs : FAT_FS) : Outcome FAT_FS :=
  let fs := { fs with data_area_start := data_area_start_value fs }
  if malloc heap (SECTOR_SIZE * 1024) = false then
    handle_error disk "Memory allocation failed for data area" else
  match fseek disk (long_of_u32 fs.data_area_start) with
  | (r, disk) =>
    if r ≠ 0 then handle_error disk "Error seeking to data area" else
    match fread (SECTOR_SIZE * 1024) 1 disk with
    | (buf, n, disk) =>
      if n ≠ 1 then handle_error disk "Error reading data area" else
      Outcome.returned disk { fs with data_area := some buf }

/-- Local `start_cluster` of `read_fat_file` (fs.c line 243):
`((uint32_t)entry->high_cluster << 16) | entry->low_cluster`. -/
def start_cluster (entry : FAT_DirEntry) : Nat :=
  u32 (entry.high_cluster <<< 16) ||| entry.low_cluster

/-- First argument of the `fseek` of `read_fat_file` (fs.c line 248), a `uint32_t`:
`fs->data_area_start + (start_cluster - 2) * fs->boot_sector.sectors_per_cluster * SECTOR_SIZE`. -/
def fat_file_offset (fs : FAT_FS) (entry : FAT_DirEntry) : Nat :=
  u32 (fs.data_area_start
       + u32 (u32 (u32_sub (start_cluster entry) 2 * fs.boot_sector.sectors_per_cluster)
              * SECTOR_SIZE))

/-- The function `read_fat_file` (fs.c lines 241-254). The value of a returning run is
the content of `file_data` at the point where the program would process it. -/
def read_fat_file (heap : Heap) (disk : FILE) (fs : FAT_FS) (entry : FAT_DirEntry) :
    Outcome (List UInt8) :=
  let size := entry.file_size
  if malloc heap size = false then
    handle_error disk "Memory allocation failed for file data" else
  match fseek disk (long_of_u32 (fat_file_offset fs entry)) with
  | (r, disk) =>
    if r ≠ 0 then handle_error disk "Error seeking to file data" else
    match fread size 1 disk with
    | (file_data, n, disk) =>
      if n ≠ 1 then handle_error disk "Error reading file data" else
      Outcome.returned disk file_data

/-! ## NTFS functions -/

/-- The function `read_ntfs_boot_sector` (fs.c lines 257-263). -/
def read_ntfs_boot_sector (disk : FILE) (fs : NTFS_FS) : Outcome NTFS_FS :=
  match fseek disk 0 with
  | (r, disk) =>
    if r ≠ 0 then handle_error disk "Error seeking to boot sector" else
    match fread (sizeof NTFS_BootSector_members) 1 disk with
    | (buf, n, disk) =>
      if n ≠ 1 then handle_error disk "Error reading boot sector" else
      Outcome.returned disk { fs with boot_sector := ⟨buf⟩ }

/-- First argument of the `fseek` of `read_ntfs_mft` (fs.c line 271), an `int`:
`fs->boot_sector.reserved_sectors * SECTOR_SIZE`. -/
def mft_start_value (b : NTFS_BootSector) : Nat :=
  b.reserved_sectors * SECTOR_SIZE

/-- The function `read_ntfs_mft` (fs.c lines 265-275). -/
def read_ntfs_mft (heap : Heap) (disk : FILE) (fs : NTFS_FS) : Outcome NTFS_FS :=
  let fs := { fs with mft_size := NTFS_MFT_SIZE }
  if malloc heap NTFS_MFT_SIZE = false then
    handle_error disk "Memory allocation failed for MFT" else
  match fseek disk (Int.ofNat (mft_start_value fs.boot_sector)) with
  | (r, disk) =>
    if r ≠ 0 then handle_error disk "Error seeking to MFT" else
    match fread NTFS_MFT_SIZE 1 disk with
    | (buf, n, disk) =>
      if n ≠ 1 then handle_error disk "Error reading MFT" else
      Outcome.returned disk { fs with mft := some buf }

/-- Local `mft_offset` of `read_ntfs_file` (fs.c line 291), a `uint64_t`:
`fs->boot_sector.reserved_sectors * SECTOR_SIZE + mft_index * NTFS_MFT_RECORD_SIZE`. -/
def mft_offset (fs : NTFS_FS) (mft_index : Nat) : Nat :=
  u64 (fs.boot_sector.reserved_sectors * SECTOR_SIZE + u64 (mft_index * NTFS_MFT_RECORD_SIZE))

/-- The function `read_ntfs_file` (fs.c lines 289-298). The value of a returning run is
the local `mft_entry` at the point where the program would process it. -/
def read_ntfs_file (disk : FILE) (fs : NTFS_FS) (mft_index : Nat) : Outcome NTFS_MFT_Entry :=
  match fseek disk (long_of_u64 (mft_offset fs mft_index)) with
  | (r, disk) =>
    if r ≠ 0 then handle_error disk "Error seeking to MFT record" else
    match fread (sizeof NTFS_MFT_Entry_members) 1 disk with
    | (buf, n, disk) =>
      if n ≠ 1 then handle_error disk "Error reading MFT record" else
      Outcome.returned disk ⟨buf⟩

/-- The function `write_ntfs_file` (fs.c lines 300-306). -/
def write_ntfs_file (disk : FILE) (start_cluster : Nat) (data : List UInt8) (size : Nat) :
    Outcome Unit :=
  match fseek disk (long_of_u64 (u64 (start_cluster * NTFS_CLUSTER_SIZE))) with
  | (r, disk) =>
    if r ≠ 0 then handle_error disk "Error seeking to file data" else
    match fwrite data size 1 disk with
    | (n, disk) =>
      if n ≠ 1 then handle_error disk "Error writing file data" else
      Outcome.returned disk ()

/-! ## Fixtures: the geometries and entries of the scenarios -/

/-- The `width` low bytes of `n`, least significant first. -/
def le_encode : Nat → Nat → List UInt8
  | 0, _ => []
  | width + 1, n => UInt8.ofNat (n % 256) :: le_encode width (n / 256)

/-- A FAT boot sector image with the given geometry members and zero elsewhere. -/
def boot_image (bytes_per_sector sectors_per_cluster reserved_sectors fat_count
    fat_size_large : Nat) : List UInt8 :=
  List.replicate 11 0 ++ le_encode 2 bytes_per_sector ++ le_encode 1 sectors_per_cluster
    ++ le_encode 2 reserved_sectors ++ le_encode 1 fat_count ++ List.replicate 19 0
    ++ le_encode 4 fat_size_large ++ List.replicate 50 0

/-- A directory record with the given cluster halves and size and zero elsewhere. -/
def dir_entry (high_cluster low_cluster file_size : Nat) : FAT_DirEntry :=
  ⟨List.replicate 20 0 ++ le_encode 2 high_cluster ++ List.replicate 4 0
    ++ le_encode 2 low_cluster ++ le_encode 4 file_size⟩

/-- A directory record whose name starts with the byte `c`, whose size is `file_size`
and which is zero elsewhere. -/
def named_entry (c : UInt8) (file_size : Nat) : FAT_DirEntry :=
  ⟨c :: List.replicate 27 0 ++ le_encode 4 file_size⟩

/-- The five console lines a reported directory record stands for, written from the
bytes of the record: name (bytes 0-7) and extension (bytes 8-10), size (bytes 28-31,
least significant first), attribute byte 11, creation date (bytes 16-17) and last
modification date (bytes 24-25). Stated independently of `print_entry`, to compare it
against. -/
def expected_lines (e : FAT_DirEntry) : List Printf :=
  [⟨"Filename: %.8s.%.3s\n", [Arg.str (e.raw.take 8), Arg.str ((e.raw.drop 8).take 3)]⟩,
   ⟨"File Size: %u\n", [Arg.uint ((e.raw.getD 28 0).toNat + 2 ^ 8 * (e.raw.getD 29 0).toNat
      + 2 ^ 16 * (e.raw.getD 30 0).toNat + 2 ^ 24 * (e.raw.getD 31 0).toNat)]⟩,
   ⟨"Attributes: %02X\n", [Arg.uint (e.raw.getD 11 0).toNat]⟩,
   ⟨"Creation Date: %04X\n",
     [Arg.uint ((e.raw.getD 16 0).toNat + 256 * (e.raw.getD 17 0).toNat)]⟩,
   ⟨"Last Modification Date: %04X\n",
     [Arg.uint ((e.raw.getD 24 0).toNat + 256 * (e.raw.getD 25 0).toNat)]⟩]

/-- The struct `FAT_FS` as `main` starts with it (`= {0}`) around a boot sector. -/
def fat_fs_of (boot : List UInt8) : FAT_FS :=
  { boot_sector := ⟨boot⟩, root_dir := none, fat := none, data_area := none,
    fat_size := 0, root_dir_start := 0, data_area_start := 0 }

/-- The struct `FAT_FS` after the readers have stored the two region offsets. -/
def fat_fs_loaded (boot : List UInt8) (root_dir_start data_area_start : Nat) : FAT_FS :=
  { boot_sector := ⟨boot⟩, root_dir := none, fat := none, data_area := none,
    fat_size := 0, root_dir_start := root_dir_start, data_area_start := data_area_start }

/-- The local `example_file` of `main` (fs.c line 336), `= {0}`: 32 zero bytes. -/
def example_file : FAT_DirEntry := ⟨List.replicate 32 0⟩

/-- The struct `NTFS_FS` as `main` starts with it (`= {0}`) around a boot sector. The
members `bytes_per_sector`, `sectors_per_cluster` and `reserved_sectors` sit at the same
offsets in both boot sector layouts, so `boot_image` serves for both. -/
def ntfs_fs_of (boot : List UInt8) : NTFS_FS :=
  { boot_sector := ⟨boot⟩, mft := none, data_area := none, mft_size := 0, data_area_size := 0 }

/-- An allocator that grants every request. -/
def heap_all : Heap := ⟨fun _ => true⟩

/-- An allocator that grants every request of a positive size and gives NULL for size 0. -/
def heap_null0 : Heap := ⟨fun n => decide (n ≠ 0)⟩

/-- A freshly opened stream on an image. -/
def fopen (image : List UInt8) : FILE := ⟨image, 0, []⟩

/-! ## Library lemmas -/

theorem fseek_ofNat (s : FILE) (n : Nat) :
    fseek s (n : Int) = (0, { s with pos := n, calls := s.calls ++ [Call.fseek (n : Int)] }) := by
  simp [fseek]

theorem fseek_long_of_u32 (s : FILE) (n : Nat) :
    fseek s (long_of_u32 n)
      = (0, { s with pos := u32 n, calls := s.calls ++ [Call.fseek (u32 n : Int)] }) :=
  fseek_ofNat s (u32 n)

theorem fread_full (s : FILE) (size : Nat) (h0 : 0 < size)
    (h : s.pos + size ≤ s.content.length) :
    fread size 1 s = ((s.content.drop s.pos).take size, 1,
      { s with pos := s.pos + size, calls := s.calls ++ [Call.fread size 1] }) := by
  have hl : ((s.content.drop s.pos).take size).length = size := by
    simp [List.length_take, List.length_drop]; omega
  simp [fread, hl, Nat.pos_iff_ne_zero.mp h0, Nat.div_self h0]

theorem fread_calls (s : FILE) (size nmemb : Nat) :
    (fread size nmemb s).2.2.calls = s.calls ++ [Call.fread size nmemb] := by
  simp [fread]

theorem fread_zero (s : FILE) (nmemb : Nat) : (fread 0 nmemb s).2.1 = 0 := by
  simp [fread]

/-! ## Layout lemmas -/

theorem le_bytes_lt (l : List UInt8) : le_bytes l < 256 ^ l.length := by
  induction l with
  | nil => simp [le_bytes]
  | cons b rest ih =>
    have hb : b.toNat < 256 := UInt8.toNat_lt b
    simp only [le_bytes, List.length_cons, pow_succ]
    omega

theorem slice_cons (l : List UInt8) (i k : Nat) (h : i < l.length) :
    (l.drop i).take (k + 1) = l.getD i 0 :: (l.drop (i + 1)).take k := by
  rw [List.drop_eq_getElem_cons h, List.take_succ_cons, List.getD_eq_getElem l 0 h]

theorem take_slice (l : List UInt8) (n i k : Nat) (h : i + k ≤ n) :
    ((l.take n).drop i).take k = (l.drop i).take k := by
  rw [List.drop_take, List.take_take]
  congr 1
  omega

theorem le_bytes_slice1 (l : List UInt8) (i : Nat) (h : i + 1 ≤ l.length) :
    le_bytes ((l.drop i).take 1) = (l.getD i 0).toNat := by
  rw [slice_cons l i 0 (by omega)]
  simp [le_bytes]

theorem le_bytes_slice2 (l : List UInt8) (i : Nat) (h : i + 2 ≤ l.length) :
    le_bytes ((l.drop i).take 2) = (l.getD i 0).toNat + 256 * (l.getD (i + 1) 0).toNat := by
  rw [slice_cons l i 1 (by omega), slice_cons l (i + 1) 0 (by omega)]
  simp [le_bytes]

theorem le_bytes_slice4 (l : List UInt8) (i : Nat) (h : i + 4 ≤ l.length) :
    le_bytes ((l.drop i).take 4)
      = (l.getD i 0).toNat + 2 ^ 8 * (l.getD (i + 1) 0).toNat
        + 2 ^ 16 * (l.getD (i + 2) 0).toNat + 2 ^ 24 * (l.getD (i + 3) 0).toNat := by
  rw [slice_cons l i 3 (by omega), slice_cons l (i + 1) 2 (by omega),
    slice_cons l (i + 2) 1 (by omega), slice_cons l (i + 3) 0 (by omega)]
  simp [le_bytes]
  ring

theorem member_lt (l : Layout) (name : String) (obj : List UInt8) :
    member l name obj < 256 ^ member_size l name := by
  have h1 := le_bytes_lt (member_bytes l name obj)
  have h2 : (member_bytes l name obj).length ≤ member_size l name := by
    simp [member_bytes, List.length_take]
  exact lt_of_lt_of_le h1 (Nat.pow_le_pow_right (by norm_num) h2)

theorem sizeof_FAT_BootSector : sizeof FAT_BootSector_members = 90 := by decide
theorem sizeof_FAT_DirEntry : sizeof FAT_DirEntry_members = 32 := by decide
theorem sizeof_NTFS_MFT_Entry : sizeof NTFS_MFT_Entry_members = 60 := by decide

theorem read_fat_boot_sector_returns (disk : FILE) (fs : FAT_FS)
    (h : 90 ≤ disk.content.length) :
    read_fat_boot_sector disk fs
      = Outcome.returned
          { disk with pos := 90, calls := disk.calls ++ [Call.fseek 0, Call.fread 90 1] }
          { fs with boot_sector := ⟨disk.content.take 90⟩ } := by
  have hs := fseek_ofNat disk 0
  simp only [Nat.cast_zero] at hs
  unfold read_fat_boot_sector
  rw [hs, sizeof_FAT_BootSector]
  simp only []
  rw [fread_full _ 90 (by norm_num) (by simpa using h)]
  simp

theorem member_at (l : Layout) (name : String) (obj : List UInt8) (off sz : Nat)
    (ho : offsetof l name = off) (hs : member_size l name = sz) :
    member l name obj = le_bytes ((obj.drop off).take sz) := by
  subst ho hs
  rfl

/-- C9: on an image of at least 90 bytes `read_fat_boot_sector` returns, the record it
stores is the first `sizeof(FAT_BootSector) = 90` bytes, its members sit at the packed
offsets (11, 13, 14, 16, 17, 36, 67) and are assembled least-significant byte first, and
an image that agrees on the first 90 bytes decodes to the same record. -/
theorem read_fat_boot_sector_layout (disk : FILE) (fs : FAT_FS)
    (h : 90 ≤ disk.content.length) :
    sizeof FAT_BootSector_members = 90 ∧
    ∃ disk1 fs1, read_fat_boot_sector disk fs = Outcome.returned disk1 fs1 ∧
      fs1.boot_sector.raw = disk.content.take 90 ∧
      fs1.boot_sector.bytes_per_sector
        = (disk.content.getD 11 0).toNat + 256 * (disk.content.getD 12 0).toNat ∧
      fs1.boot_sector.sectors_per_cluster = (disk.content.getD 13 0).toNat ∧
      fs1.boot_sector.reserved_sectors
        = (disk.content.getD 14 0).toNat + 256 * (disk.content.getD 15 0).toNat ∧
      fs1.boot_sector.fat_count = (disk.content.getD 16 0).toNat ∧
      fs1.boot_sector.root_entries
        = (disk.content.getD 17 0).toNat + 256 * (disk.content.getD 18 0).toNat ∧
      fs1.boot_sector.fat_size_large
        = (disk.content.getD 36 0).toNat + 2 ^ 8 * (disk.content.getD 37 0).toNat
          + 2 ^ 16 * (disk.content.getD 38 0).toNat + 2 ^ 24 * (disk.content.getD 39 0).toNat ∧
      fs1.boot_sector.volume_id
        = (disk.content.getD 67 0).toNat + 2 ^ 8 * (disk.content.getD 68 0).toNat
          + 2 ^ 16 * (disk.content.getD 69 0).toNat + 2 ^ 24 * (disk.content.getD 70 0).toNat ∧
      ∀ (other : FILE) (fs2 : FAT_FS), other.content.take 90 = disk.content.take 90 →
        ∃ disk2 fs3, read_fat_boot_sector other fs2 = Outcome.returned disk2 fs3 ∧
          fs3.boot_sector = fs1.boot_sector := by
  refine ⟨sizeof_FAT_BootSector, _, _, read_fat_boot_sector_returns disk fs h, rfl,
    ?_, ?_, ?_, ?_, ?_, ?_, ?_, ?_⟩
  · show member FAT_BootSector_members "bytes_per_sector" _ = _
    rw [member_at _ _ _ 11 2 (by decide) (by decide), take_slice _ _ _ _ (by norm_num),
      le_bytes_slice2 _ _ (by omega)]
  · show member FAT_BootSector_members "sectors_per_cluster" _ = _
    rw [member_at _ _ _ 13 1 (by decide) (by decide), take_slice _ _ _ _ (by norm_num),
      le_bytes_slice1 _ _ (by omega)]
  · show member FAT_BootSector_members "reserved_sectors" _ = _
    rw [member_at _ _ _ 14 2 (by decide) (by decide), take_slice _ _ _ _ (by norm_num),
      le_bytes_slice2 _ _ (by omega)]
  · show member FAT_BootSector_members "fat_count" _ = _
    rw [member_at _ _ _ 16 1 (by decide) (by decide), take_slice _ _ _ _ (by norm_num),
      le_bytes_slice1 _ _ (by omega)]
  · show member FAT_BootSector_members "root_entries" _ = _
    rw [member_at _ _ _ 17 2 (by decide) (by decide), take_slice _ _ _ _ (by norm_num),
      le_bytes_slice2 _ _ (by omega)]
  · show member FAT_BootSector_members "fat_size_large" _ = _
    rw [member_at _ _ _ 36 4 (by decide) (by decide), take_slice _ _ _ _ (by norm_num),
      le_bytes_slice4 _ _ (by omega)]
  · show member FAT_BootSector_members "volume_id" _ = _
    rw [member_at _ _ _ 67 4 (by decide) (by decide), take_slice _ _ _ _ (by norm_num),
      le_bytes_slice4 _ _ (by omega)]
  · intro other fs2 hsame
    have hlen : 90 ≤ other.content.length := by
      have h1 := congrArg List.length hsame
      simp only [List.length_take] at h1
      omega
    refine ⟨_, _, read_fat_boot_sector_returns other fs2 hlen, ?_⟩
    simp [hsame]

/-- C9, at a concrete image: the boot sector of the 512 / 1 / 1 / 2 / 9 geometry followed
by ten more bytes. -/
theorem read_fat_boot_sector_layout_witness :
    90 ≤ (fopen (boot_image 512 1 1 2 9 ++ List.replicate 10 7)).content.length ∧
    ∃ disk1 fs1, read_fat_boot_sector (fopen (boot_image 512 1 1 2 9 ++ List.replicate 10 7))
        (fat_fs_of []) = Outcome.returned disk1 fs1 ∧
      fs1.boot_sector.bytes_per_sector = 512 ∧ fs1.boot_sector.fat_size_large = 9 := by
  refine ⟨by decide, ?_⟩
  obtain ⟨-, d, f, hrun, hraw, hbps, -, -, -, -, hfsl, -⟩ :=
    read_fat_boot_sector_layout (fopen (boot_image 512 1 1 2 9 ++ List.replicate 10 7))
      (fat_fs_of []) (by decide)
  exact ⟨d, f, hrun, by rw [hbps]; decide, by rw [hfsl]; decide⟩

/-! ## Directory enumeration -/

theorem print_loop_eq (root_dir : List FAT_DirEntry) (n : Nat) :
    ∀ (i : Nat) (out : List Printf), i + n ≤ root_dir.length →
      print_fat_root_directory_loop root_dir n i out
        = some (out ++ (((root_dir.drop i).take n).takeWhile
            (fun e => e.filename0 != 0)).flatMap print_entry) := by
  induction n with
  | zero => intro i out _; simp [print_fat_root_directory_loop]
  | succ n ih =>
    intro i out h
    have hi : i < root_dir.length := by omega
    have hget : root_dir.get? i = some root_dir[i] := by simp [hi]
    rw [print_fat_root_directory_loop, hget]
    simp only []
    rw [List.drop_eq_getElem_cons hi, List.take_succ_cons]
    by_cases hz : root_dir[i].filename0 = 0
    · simp [hz, List.takeWhile_cons]
    · rw [if_neg hz, ih (i + 1) _ (by omega)]
      simp [List.takeWhile_cons, hz, List.append_assoc]

theorem takeWhile_append_stop (p : FAT_DirEntry → Bool) (pre post : List FAT_DirEntry)
    (z : FAT_DirEntry) (hpre : ∀ e ∈ pre, p e = true) (hz : p z = false) :
    (pre ++ z :: post).takeWhile p = pre := by
  induction pre with
  | nil => simp [List.takeWhile_cons, hz]
  | cons a rest ih =>
    have ha : p a = true := hpre a (by simp)
    rw [List.cons_append, List.takeWhile_cons, ha, if_pos rfl,
      ih (fun e he => hpre e (by simp [he]))]

theorem filename0_eq (e : FAT_DirEntry) : e.filename0 = e.raw.getD 0 0 := by
  cases h : e.raw with
  | nil => simp [FAT_DirEntry.filename0, FAT_DirEntry.filename, member_bytes, h]
  | cons b rest =>
    have ho : offsetof FAT_DirEntry_members "filename" = 0 := by decide
    have hs : member_size FAT_DirEntry_members "filename" = 8 := by decide
    simp [FAT_DirEntry.filename0, FAT_DirEntry.filename, member_bytes, h, ho, hs]

theorem print_entry_eq (e : FAT_DirEntry) (h : e.raw.length = 32) :
    print_entry e = expected_lines e := by
  have hname : e.filename = e.raw.take 8 := by
    have ho : offsetof FAT_DirEntry_members "filename" = 0 := by decide
    have hs : member_size FAT_DirEntry_members "filename" = 8 := by decide
    rw [FAT_DirEntry.filename, member_bytes, ho, hs, List.drop_zero]
  have hext : e.extension = (e.raw.drop 8).take 3 := by
    have ho : offsetof FAT_DirEntry_members "extension" = 8 := by decide
    have hs : member_size FAT_DirEntry_members "extension" = 3 := by decide
    rw [FAT_DirEntry.extension, member_bytes, ho, hs]
  have hsize : e.file_size = (e.raw.getD 28 0).toNat + 2 ^ 8 * (e.raw.getD 29 0).toNat
      + 2 ^ 16 * (e.raw.getD 30 0).toNat + 2 ^ 24 * (e.raw.getD 31 0).toNat := by
    rw [FAT_DirEntry.file_size, member_at _ _ _ 28 4 (by decide) (by decide),
      le_bytes_slice4 _ _ (by omega)]
  have hattr : e.attributes = (e.raw.getD 11 0).toNat := by
    rw [FAT_DirEntry.attributes, member_at _ _ _ 11 1 (by decide) (by decide),
      le_bytes_slice1 _ _ (by omega)]
  have hcd : e.creation_date = (e.raw.getD 16 0).toNat + 256 * (e.raw.getD 17 0).toNat := by
    rw [FAT_DirEntry.creation_date, member_at _ _ _ 16 2 (by decide) (by decide),
      le_bytes_slice2 _ _ (by omega)]
  have hmd : e.last_modification_date
      = (e.raw.getD 24 0).toNat + 256 * (e.raw.getD 25 0).toNat := by
    rw [FAT_DirEntry.last_modification_date, member_at _ _ _ 24 2 (by decide) (by decide),
      le_bytes_slice2 _ _ (by omega)]
  rw [print_entry, expected_lines, hname, hext, hsize, hattr, hcd, hmd]

theorem flatMap_eq_of_forall (f g : FAT_DirEntry → List Printf) (l : List FAT_DirEntry)
    (h : ∀ e ∈ l, f e = g e) : l.flatMap f = l.flatMap g := by
  induction l with
  | nil => rfl
  | cons a rest ih =>
    rw [List.flatMap_cons, List.flatMap_cons, h a (by simp),
      ih (fun e he => h e (by simp [he]))]

theorem length_flatMap_expected_lines (l : List FAT_DirEntry) :
    (l.flatMap expected_lines).length = 5 * l.length := by
  induction l with
  | nil => rfl
  | cons a rest ih =>
    rw [List.flatMap_cons, List.length_append, ih, List.length_cons]
    simp only [expected_lines, List.length_cons, List.length_nil]
    omega

/-- C6: on a buffer of 512 records of 32 bytes `print_fat_root_directory` reports exactly
the longest leading run of records whose first byte (`filename[0]`) is not zero, in
buffer order: for each of them it prints the five lines with the record's name and
extension bytes, its size, attribute byte, creation date and last modification date, and
nothing else. Everything from the first record with a zero first byte on is left out, at
most 512 records are reported (five lines each), and a second enumeration of the same
buffer prints the same sequence again. -/
theorem print_fat_root_directory_reports_run (root_dir : List FAT_DirEntry)
    (out : List Printf) (h : root_dir.length = ROOT_DIR_ENTRIES)
    (hsz : ∀ e ∈ root_dir, e.raw.length = sizeof FAT_DirEntry_members) :
    print_fat_root_directory root_dir out
      = some (out ++ (root_dir.takeWhile
          (fun e => e.raw.getD 0 0 != 0)).flatMap expected_lines) ∧
    (∀ (pre post : List FAT_DirEntry) (z : FAT_DirEntry), root_dir = pre ++ z :: post →
      (∀ e ∈ pre, e.raw.getD 0 0 ≠ 0) → z.raw.getD 0 0 = 0 →
      print_fat_root_directory root_dir out = some (out ++ pre.flatMap expected_lines)) ∧
    ((∀ e ∈ root_dir, e.raw.getD 0 0 ≠ 0) →
      print_fat_root_directory root_dir out
        = some (out ++ root_dir.flatMap expected_lines)) ∧
    (root_dir.takeWhile (fun e => e.raw.getD 0 0 != 0)).length ≤ ROOT_DIR_ENTRIES ∧
    (∀ out1, print_fat_root_directory root_dir out = some out1 →
      out1.length
        = out.length + 5 * (root_dir.takeWhile (fun e => e.raw.getD 0 0 != 0)).length ∧
      print_fat_root_directory root_dir out1
        = some (out1 ++ (root_dir.takeWhile
            (fun e => e.raw.getD 0 0 != 0)).flatMap expected_lines)) ∧
    ROOT_DIR_ENTRIES = 512 := by
  have hpred : (fun e : FAT_DirEntry => e.filename0 != 0)
      = (fun e : FAT_DirEntry => e.raw.getD 0 0 != 0) := by
    funext e
    rw [filename0_eq]
  have hlines : (root_dir.takeWhile (fun e => e.raw.getD 0 0 != 0)).flatMap print_entry
      = (root_dir.takeWhile (fun e => e.raw.getD 0 0 != 0)).flatMap expected_lines := by
    apply flatMap_eq_of_forall
    intro e he
    have hmem : e ∈ root_dir := (List.takeWhile_sublist _).subset he
    exact print_entry_eq e (by rw [hsz e hmem]; decide)
  have key : ∀ o, print_fat_root_directory root_dir o
      = some (o ++ (root_dir.takeWhile
          (fun e => e.raw.getD 0 0 != 0)).flatMap expected_lines) := by
    intro o
    unfold print_fat_root_directory
    rw [print_loop_eq root_dir ROOT_DIR_ENTRIES 0 o (by omega), List.drop_zero, ← h,
      List.take_length, hpred, hlines]
  refine ⟨key out, ?_, ?_, ?_, ?_, rfl⟩
  · intro pre post z hsplit hpre hz
    have hz2 : (z.raw.getD 0 0 != 0) = false := by
      rw [hz]
      rfl
    rw [key out, hsplit, takeWhile_append_stop _ pre post z
      (fun e he => bne_iff_ne.mpr (hpre e he)) hz2]
  · intro hall
    rw [key out, List.takeWhile_eq_self_iff.mpr (fun e he => bne_iff_ne.mpr (hall e he))]
  · rw [← h]
    exact (List.takeWhile_sublist _).length_le
  · intro out1 hrun
    refine ⟨?_, key out1⟩
    rw [key out] at hrun
    have heq := Option.some.inj hrun
    rw [← heq, List.length_append, length_flatMap_expected_lines]

/-- C6, at a concrete buffer: two named records (sizes 100 and 7), the sentinel, a stale
named record and 508 further zero records. The ten lines of the first two records are
printed and nothing of the stale one. -/
theorem print_fat_root_directory_reports_run_witness :
    ([named_entry 65 100, named_entry 66 7, named_entry 0 0, named_entry 67 5]
        ++ List.replicate 508 (named_entry 0 0)).length = ROOT_DIR_ENTRIES ∧
    (∀ e ∈ [named_entry 65 100, named_entry 66 7, named_entry 0 0, named_entry 67 5]
        ++ List.replicate 508 (named_entry 0 0), e.raw.length = sizeof FAT_DirEntry_members) ∧
    print_fat_root_directory
        ([named_entry 65 100, named_entry 66 7, named_entry 0 0, named_entry 67 5]
          ++ List.replicate 508 (named_entry 0 0)) []
      = some
        [⟨"Filename: %.8s.%.3s\n", [Arg.str [65, 0, 0, 0, 0, 0, 0, 0], Arg.str [0, 0, 0]]⟩,
         ⟨"File Size: %u\n", [Arg.uint 100]⟩,
         ⟨"Attributes: %02X\n", [Arg.uint 0]⟩,
         ⟨"Creation Date: %04X\n", [Arg.uint 0]⟩,
         ⟨"Last Modification Date: %04X\n", [Arg.uint 0]⟩,
         ⟨"Filename: %.8s.%.3s\n", [Arg.str [66, 0, 0, 0, 0, 0, 0, 0], Arg.str [0, 0, 0]]⟩,
         ⟨"File Size: %u\n", [Arg.uint 7]⟩,
         ⟨"Attributes: %02X\n", [Arg.uint 0]⟩,
         ⟨"Creation Date: %04X\n", [Arg.uint 0]⟩,
         ⟨"Last Modification Date: %04X\n", [Arg.uint 0]⟩] := by
  have hlen : ([named_entry 65 100, named_entry 66 7, named_entry 0 0, named_entry 67 5]
      ++ List.replicate 508 (named_entry 0 0)).length = ROOT_DIR_ENTRIES := by
    rw [List.length_append, List.length_replicate]
    rfl
  have hsz : ∀ e ∈ [named_entry 65 100, named_entry 66 7, named_entry 0 0, named_entry 67 5]
      ++ List.replicate 508 (named_entry 0 0),
      e.raw.length = sizeof FAT_DirEntry_members := by
    intro e he
    rcases List.mem_append.mp he with h1 | h2
    · simp only [List.mem_cons, List.mem_singleton, List.not_mem_nil, or_false] at h1
      rcases h1 with h1 | h1 | h1 | h1 <;> rw [h1] <;> decide
    · rw [(List.mem_replicate.mp h2).2]
      decide
  refine ⟨hlen, hsz, ?_⟩
  have hrun := (print_fat_root_directory_reports_run
    ([named_entry 65 100, named_entry 66 7, named_entry 0 0, named_entry 67 5]
        ++ List.replicate 508 (named_entry 0 0)) [] hlen hsz).2.1
    [named_entry 65 100, named_entry 66 7]
    (named_entry 67 5 :: List.replicate 508 (named_entry 0 0))
    (named_entry 0 0) rfl (by decide) (by decide)
  rw [hrun]
  decide

/-! ## Runs of the FAT readers -/

theorem u32_lt (n : Nat) : u32 n < 2 ^ 32 := Nat.mod_lt _ (by norm_num)

theorem u32_of_lt (n : Nat) (h : n < 2 ^ 32) : u32 n = n := Nat.mod_eq_of_lt h

theorem root_dir_start_value_eq (b : FAT_BootSector) :
    root_dir_start_value b
      = ((b.reserved_sectors + b.fat_size_large * b.fat_count) * SECTOR_SIZE) % 2 ^ 32 := by
  simp [root_dir_start_value, u32, Nat.mul_mod, Nat.add_mod]

theorem read_fat_fat_calls (heap : Heap) (disk : FILE) (fs : FAT_FS)
    (hm : malloc heap (fat_size_value fs.boot_sector) = true) :
    (read_fat_fat heap disk fs).disk.calls
      = disk.calls ++ [Call.fseek (fat_start_value fs.boot_sector : Nat),
          Call.fread (fat_size_value fs.boot_sector) 1] := by
  unfold read_fat_fat
  simp only [hm, Int.ofNat_eq_coe, fseek_ofNat]
  generalize hf : fread (fat_size_value fs.boot_sector) 1 _ = r
  have hc := congrArg (fun x => x.2.2.calls) hf
  simp only [fread_calls] at hc
  obtain ⟨buf, n, d⟩ := r
  by_cases hn : n = 1 <;> simp_all [handle_error, Outcome.disk]

theorem read_fat_fat_returns (heap : Heap) (disk : FILE) (fs : FAT_FS)
    (hm : malloc heap (fat_size_value fs.boot_sector) = true)
    (h0 : 0 < fat_size_value fs.boot_sector)
    (hlen : fat_start_value fs.boot_sector + fat_size_value fs.boot_sector
      ≤ disk.content.length) :
    read_fat_fat heap disk fs
      = Outcome.returned
          { disk with
            pos := fat_start_value fs.boot_sector + fat_size_value fs.boot_sector,
            calls := disk.calls ++ [Call.fseek (fat_start_value fs.boot_sector : Nat),
              Call.fread (fat_size_value fs.boot_sector) 1] }
          { fs with
            fat_size := fat_size_value fs.boot_sector,
            fat := some ((disk.content.drop (fat_start_value fs.boot_sector)).take
              (fat_size_value fs.boot_sector)) } := by
  unfold read_fat_fat
  simp only [hm, Int.ofNat_eq_coe, fseek_ofNat]
  rw [fread_full _ _ h0 (by simpa using hlen)]
  simp

theorem read_fat_root_directory_calls (heap : Heap) (disk : FILE) (fs : FAT_FS)
    (hm : malloc heap (ROOT_DIR_ENTRIES * sizeof FAT_DirEntry_members) = true) :
    (read_fat_root_directory heap disk fs).disk.calls
      = disk.calls ++ [Call.fseek (root_dir_start_value fs.boot_sector : Nat),
          Call.fread (ROOT_DIR_ENTRIES * sizeof FAT_DirEntry_members) 1] := by
  have hu : u32 (root_dir_start_value fs.boot_sector) = root_dir_start_value fs.boot_sector :=
    u32_of_lt _ (u32_lt _)
  unfold read_fat_root_directory
  simp only [hm, fseek_long_of_u32, hu]
  generalize hf : fread (ROOT_DIR_ENTRIES * sizeof FAT_DirEntry_members) 1 _ = r
  have hc := congrArg (fun x => x.2.2.calls) hf
  simp only [fread_calls] at hc
  obtain ⟨buf, n, d⟩ := r
  by_cases hn : n = 1 <;> simp_all [handle_error, Outcome.disk]

theorem read_fat_root_directory_returns (heap : Heap) (disk : FILE) (fs : FAT_FS)
    (hm : malloc heap (ROOT_DIR_ENTRIES * sizeof FAT_DirEntry_members) = true)
    (hlen : root_dir_start_value fs.boot_sector + ROOT_DIR_ENTRIES * sizeof FAT_DirEntry_members
      ≤ disk.content.length) :
    ∃ entries, read_fat_root_directory heap disk fs
      = Outcome.returned
          { disk with
            pos := root_dir_start_value fs.boot_sector
              + ROOT_DIR_ENTRIES * sizeof FAT_DirEntry_members,
            calls := disk.calls ++ [Call.fseek (root_dir_start_value fs.boot_sector : Nat),
              Call.fread (ROOT_DIR_ENTRIES * sizeof FAT_DirEntry_members) 1] }
          { fs with
            root_dir_start := root_dir_start_value fs.boot_sector,
            root_dir := some entries } := by
  have hu : u32 (root_dir_start_value fs.boot_sector) = root_dir_start_value fs.boot_sector :=
    u32_of_lt _ (u32_lt _)
  unfold read_fat_root_directory
  simp only [hm, fseek_long_of_u32, hu]
  rw [fread_full _ _ (by decide) (by simpa using hlen)]
  simp

theorem read_fat_data_area_returns (heap : Heap) (disk : FILE) (fs : FAT_FS)
    (hm : malloc heap (SECTOR_SIZE * 1024) = true)
    (hlen : data_area_start_value fs + SECTOR_SIZE * 1024 ≤ disk.content.length) :
    ∃ buf, read_fat_data_area heap disk fs
      = Outcome.returned
          { disk with
            pos := data_area_start_value fs + SECTOR_SIZE * 1024,
            calls := disk.calls ++ [Call.fseek (data_area_start_value fs : Nat),
              Call.fread (SECTOR_SIZE * 1024) 1] }
          { fs with
            data_area_start := data_area_start_value fs,
            data_area := some buf } := by
  have hu : u32 (data_area_start_value fs) = data_area_start_value fs :=
    u32_of_lt _ (u32_lt _)
  have hpos : 0 < SECTOR_SIZE * 1024 := by norm_num [SECTOR_SIZE]
  unfold read_fat_data_area
  generalize SECTOR_SIZE * 1024 = size at hpos hlen hm ⊢
  simp only [hm, fseek_long_of_u32, hu]
  rw [fread_full _ _ hpos (by simpa using hlen)]
  simp

theorem read_fat_root_directory_stores (heap : Heap) (disk d : FILE) (fs fs1 : FAT_FS)
    (h : read_fat_root_directory heap disk fs = Outcome.returned d fs1) :
    fs1.root_dir_start = root_dir_start_value fs.boot_sector := by
  unfold read_fat_root_directory at h
  dsimp only at h
  split at h
  · simp [handle_error] at h
  · generalize fseek disk _ = r at h
    obtain ⟨r, d1⟩ := r
    dsimp only at h
    split at h
    · simp [handle_error] at h
    · generalize fread _ 1 d1 = q at h
      obtain ⟨buf, n, d2⟩ := q
      dsimp only at h
      split at h
      · simp [handle_error] at h
      · simp only [Outcome.returned.injEq] at h
        rw [← h.2]

/-- C1 (amended): the offset `read_fat_root_directory` stores in `root_dir_start` and seeks
to is `(reserved_sectors + fat_size_large * fat_count) * SECTOR_SIZE` reduced modulo
`2 ^ 32`, with the constant `SECTOR_SIZE = 512`; it is the offset of the claim when
`bytes_per_sector` is 512 and the product fits 32 bits, and 9728 for the geometry
1 / 2 / 9. The run returns when the image holds the 512 * 32 bytes of the table there. -/
theorem read_fat_root_directory_start (heap : Heap) (disk : FILE) (fs : FAT_FS)
    (hm : malloc heap (ROOT_DIR_ENTRIES * sizeof FAT_DirEntry_members) = true) :
    root_dir_start_value fs.boot_sector
      = ((fs.boot_sector.reserved_sectors
          + fs.boot_sector.fat_size_large * fs.boot_sector.fat_count) * 512) % 2 ^ 32 ∧
    (read_fat_root_directory heap disk fs).disk.calls
      = disk.calls ++ [Call.fseek (root_dir_start_value fs.boot_sector : Nat),
          Call.fread (512 * 32) 1] ∧
    (∀ d fs1, read_fat_root_directory heap disk fs = Outcome.returned d fs1 →
      fs1.root_dir_start = root_dir_start_value fs.boot_sector) ∧
    (root_dir_start_value fs.boot_sector + 512 * 32 ≤ disk.content.length →
      ∃ d fs1, read_fat_root_directory heap disk fs = Outcome.returned d fs1 ∧
        fs1.root_dir_start = root_dir_start_value fs.boot_sector) ∧
    (fs.boot_sector.bytes_per_sector = 512 →
      (fs.boot_sector.reserved_sectors
        + fs.boot_sector.fat_size_large * fs.boot_sector.fat_count) * 512 < 2 ^ 32 →
      root_dir_start_value fs.boot_sector
        = (fs.boot_sector.reserved_sectors
            + fs.boot_sector.fat_size_large * fs.boot_sector.fat_count)
          * fs.boot_sector.bytes_per_sector) ∧
    (fs.boot_sector.reserved_sectors = 1 → fs.boot_sector.fat_count = 2 →
      fs.boot_sector.fat_size_large = 9 → root_dir_start_value fs.boot_sector = 9728) := by
  have hv := root_dir_start_value_eq fs.boot_sector
  have hsz : ROOT_DIR_ENTRIES * sizeof FAT_DirEntry_members = 512 * 32 := by decide
  refine ⟨hv, ?_, ?_, ?_, ?_, ?_⟩
  · rw [read_fat_root_directory_calls heap disk fs hm, hsz]
  · intro d fs1 h
    exact read_fat_root_directory_stores heap disk d fs fs1 h
  · intro hlen
    obtain ⟨entries, hrun⟩ := read_fat_root_directory_returns heap disk fs hm
      (by rw [hsz]; exact hlen)
    exact ⟨_, _, hrun, rfl⟩
  · intro hbps hfit
    rw [hv, hbps]
    exact Nat.mod_eq_of_lt hfit
  · intro hrs hfc hfsl
    rw [hv, hrs, hfc, hfsl]
    rfl

/-- C1 (amended), at the geometry of the scenario on an image of 26112 bytes. -/
theorem read_fat_root_directory_start_witness :
    malloc heap_all (ROOT_DIR_ENTRIES * sizeof FAT_DirEntry_members) = true ∧
    root_dir_start_value (fat_fs_of (boot_image 512 1 1 2 9)).boot_sector = 9728 ∧
    (read_fat_root_directory heap_all (fopen (List.replicate 26112 0))
        (fat_fs_of (boot_image 512 1 1 2 9))).disk.calls
      = [Call.fseek 9728, Call.fread (512 * 32) 1] ∧
    ∃ d fs1, read_fat_root_directory heap_all (fopen (List.replicate 26112 0))
        (fat_fs_of (boot_image 512 1 1 2 9)) = Outcome.returned d fs1 ∧
      fs1.root_dir_start = 9728 := by
  have h := read_fat_root_directory_start heap_all (fopen (List.replicate 26112 0))
    (fat_fs_of (boot_image 512 1 1 2 9)) rfl
  have h9 : root_dir_start_value (fat_fs_of (boot_image 512 1 1 2 9)).boot_sector = 9728 :=
    h.2.2.2.2.2 (by decide) (by decide) (by decide)
  refine ⟨rfl, h9, ?_, ?_⟩
  · rw [h.2.1, h9]
    rfl
  · obtain ⟨d, fs1, hrun, hst⟩ := h.2.2.2.1 (by
      rw [h9]
      show 9728 + 512 * 32 ≤ (List.replicate 26112 (0 : UInt8)).length
      rw [List.length_replicate])
    exact ⟨d, fs1, hrun, by rw [hst, h9]⟩

/-- C1 (counterexample): with `bytes_per_sector = 1024`, `reserved_sectors = 1`,
`fat_count = 2`, `fat_size_large = 9` the function seeks to 9728, not to
`(1 + 9 * 2) * 1024 = 19456`; and with `bytes_per_sector = 512`, `reserved_sectors = 0`,
`fat_count = 2`, `fat_size_large = 2 ^ 22` it seeks to 0, not to `2 ^ 32`. -/
theorem read_fat_root_directory_ignores_bytes_per_sector :
    (fat_fs_of (boot_image 1024 1 1 2 9)).boot_sector.bytes_per_sector = 1024 ∧
    seeks (read_fat_root_directory heap_all (fopen [])
        (fat_fs_of (boot_image 1024 1 1 2 9))).disk.calls = [9728] ∧
    seeks (read_fat_root_directory heap_all (fopen [])
        (fat_fs_of (boot_image 1024 1 1 2 9))).disk.calls
      ≠ [(((fat_fs_of (boot_image 1024 1 1 2 9)).boot_sector.reserved_sectors
          + (fat_fs_of (boot_image 1024 1 1 2 9)).boot_sector.fat_size_large
            * (fat_fs_of (boot_image 1024 1 1 2 9)).boot_sector.fat_count)
          * (fat_fs_of (boot_image 1024 1 1 2 9)).boot_sector.bytes_per_sector : Nat)] ∧
    (fat_fs_of (boot_image 512 1 0 2 4194304)).boot_sector.bytes_per_sector = 512 ∧
    seeks (read_fat_root_directory heap_all (fopen [])
        (fat_fs_of (boot_image 512 1 0 2 4194304))).disk.calls = [0] ∧
    seeks (read_fat_root_directory heap_all (fopen [])
        (fat_fs_of (boot_image 512 1 0 2 4194304))).disk.calls
      ≠ [(((fat_fs_of (boot_image 512 1 0 2 4194304)).boot_sector.reserved_sectors
          + (fat_fs_of (boot_image 512 1 0 2 4194304)).boot_sector.fat_size_large
            * (fat_fs_of (boot_image 512 1 0 2 4194304)).boot_sector.fat_count)
          * (fat_fs_of (boot_image 512 1 0 2 4194304)).boot_sector.bytes_per_sector : Nat)] := by
  decide

/-! ## The allocation table, the directory and the data area in a row -/

theorem read_fat_fat_never_returns_empty (heap : Heap) (disk d : FILE) (fs fs1 : FAT_FS)
    (h0 : fat_size_value fs.boot_sector = 0) :
    read_fat_fat heap disk fs ≠ Outcome.returned d fs1 := by
  intro h
  unfold read_fat_fat at h
  dsimp only at h
  rw [h0] at h
  split at h
  · simp [handle_error] at h
  · generalize fseek disk _ = r at h
    obtain ⟨r, d1⟩ := r
    dsimp only at h
    split at h
    · simp [handle_error] at h
    · have hz := fread_zero d1 1
      generalize fread 0 1 d1 = q at h hz
      obtain ⟨buf, n, d2⟩ := q
      dsimp only at h hz
      subst hz
      simp [handle_error] at h

/-- C5 (amended): with `fat_size_large = 0` the table size is 0 bytes and `read_fat_fat`
never returns; it exits with "Memory allocation failed for FAT" when `malloc(0)` gives
NULL and with "Error reading FAT" (after the seek and a read of 0 bytes) when `malloc(0)`
gives a pointer. -/
theorem read_fat_fat_size_zero (heap : Heap) (disk : FILE) (fs : FAT_FS)
    (h : fs.boot_sector.fat_size_large = 0) :
    fat_size_value fs.boot_sector = 0 ∧
    (malloc heap 0 = false →
      read_fat_fat heap disk fs = Outcome.exited disk "Memory allocation failed for FAT") ∧
    (malloc heap 0 = true →
      ∃ d, read_fat_fat heap disk fs = Outcome.exited d "Error reading FAT" ∧
        d.calls = disk.calls ++ [Call.fseek (fat_start_value fs.boot_sector : Nat),
          Call.fread 0 1]) ∧
    (∀ d fs1, read_fat_fat heap disk fs ≠ Outcome.returned d fs1) := by
  have h0 : fat_size_value fs.boot_sector = 0 := by simp [fat_size_value, h, u32]
  refine ⟨h0, ?_, ?_, fun d fs1 => read_fat_fat_never_returns_empty heap disk d fs fs1 h0⟩
  · intro hm
    unfold read_fat_fat
    simp [h0, hm, handle_error]
  · intro hm
    unfold read_fat_fat
    simp only [h0, hm, Int.ofNat_eq_coe, fseek_ofNat]
    simp [fread, handle_error]

/-- C5 (amended), at the boot sector with `fat_size_large = 0` and an allocator that
gives NULL for size 0. -/
theorem read_fat_fat_size_zero_witness :
    (fat_fs_of (boot_image 512 1 1 2 0)).boot_sector.fat_size_large = 0 ∧
    read_fat_fat heap_null0 (fopen (boot_image 512 1 1 2 0)) (fat_fs_of (boot_image 512 1 1 2 0))
      = Outcome.exited (fopen (boot_image 512 1 1 2 0)) "Memory allocation failed for FAT" :=
  ⟨by decide, (read_fat_fat_size_zero heap_null0 (fopen (boot_image 512 1 1 2 0))
    (fat_fs_of (boot_image 512 1 1 2 0)) (by decide)).2.1 (by decide)⟩

/-- C5 (counterexample): with `fat_size_large = 0` and a `malloc(0)` that gives a pointer,
the failure reported is the read failure, not the allocation failure. -/
theorem read_fat_fat_size_zero_read_error :
    (fat_fs_of (boot_image 512 1 1 2 0)).boot_sector.fat_size_large = 0 ∧
    read_fat_fat heap_all (fopen (boot_image 512 1 1 2 0)) (fat_fs_of (boot_image 512 1 1 2 0))
      = Outcome.exited ⟨boot_image 512 1 1 2 0, 512, [Call.fseek 512, Call.fread 0 1]⟩
          "Error reading FAT" := by
  decide

theorem read_fat_fat_ok (heap : Heap) (disk : FILE) (fs : FAT_FS)
    (hm : malloc heap (fat_size_value fs.boot_sector) = true)
    (h0 : 0 < fat_size_value fs.boot_sector)
    (hlen : fat_start_value fs.boot_sector + fat_size_value fs.boot_sector
      ≤ disk.content.length) :
    ∃ d1 fs1, read_fat_fat heap disk fs = Outcome.returned d1 fs1 ∧
      d1.content = disk.content ∧ fs1.boot_sector = fs.boot_sector ∧
      fs1.fat_size = fat_size_value fs.boot_sector :=
  ⟨_, _, read_fat_fat_returns heap disk fs hm h0 hlen, rfl, rfl, rfl⟩

theorem read_fat_root_directory_ok (heap : Heap) (disk : FILE) (fs : FAT_FS)
    (hm : malloc heap (ROOT_DIR_ENTRIES * sizeof FAT_DirEntry_members) = true)
    (hlen : root_dir_start_value fs.boot_sector + ROOT_DIR_ENTRIES * sizeof FAT_DirEntry_members
      ≤ disk.content.length) :
    ∃ d2 fs2, read_fat_root_directory heap disk fs = Outcome.returned d2 fs2 ∧
      d2.content = disk.content ∧ fs2.boot_sector = fs.boot_sector ∧
      fs2.root_dir_start = root_dir_start_value fs.boot_sector := by
  obtain ⟨entries, hrun⟩ := read_fat_root_directory_returns heap disk fs hm hlen
  exact ⟨_, _, hrun, rfl, rfl, rfl⟩

theorem read_fat_data_area_ok (heap : Heap) (disk : FILE) (fs : FAT_FS)
    (hm : malloc heap (SECTOR_SIZE * 1024) = true)
    (hlen : data_area_start_value fs + SECTOR_SIZE * 1024 ≤ disk.content.length) :
    ∃ d3 fs3, read_fat_data_area heap disk fs = Outcome.returned d3 fs3 ∧
      fs3.data_area_start = data_area_start_value fs := by
  obtain ⟨buf, hrun⟩ := read_fat_data_area_returns heap disk fs hm hlen
  exact ⟨_, _, hrun, rfl⟩

theorem fat_layout_runs (heap : Heap) (disk : FILE) (fs : FAT_FS)
    (hheap : ∀ n, heap.alloc n = true)
    (h0 : 0 < fat_size_value fs.boot_sector)
    (h1 : fat_start_value fs.boot_sector + fat_size_value fs.boot_sector ≤ disk.content.length)
    (h2 : root_dir_start_value fs.boot_sector + ROOT_DIR_ENTRIES * sizeof FAT_DirEntry_members
      ≤ disk.content.length)
    (h3 : u32 (root_dir_start_value fs.boot_sector
        + ROOT_DIR_ENTRIES * sizeof FAT_DirEntry_members) + SECTOR_SIZE * 1024
      ≤ disk.content.length) :
    ∃ d1 fs1 d2 fs2 d3 fs3,
      read_fat_fat heap disk fs = Outcome.returned d1 fs1 ∧
      read_fat_root_directory heap d1 fs1 = Outcome.returned d2 fs2 ∧
      read_fat_data_area heap d2 fs2 = Outcome.returned d3 fs3 ∧
      fs1.fat_size = fat_size_value fs.boot_sector ∧
      fs2.root_dir_start = root_dir_start_value fs.boot_sector ∧
      fs3.data_area_start = u32 (root_dir_start_value fs.boot_sector
        + ROOT_DIR_ENTRIES * sizeof FAT_DirEntry_members) := by
  obtain ⟨d1, fs1, r1, c1, b1, s1⟩ := read_fat_fat_ok heap disk fs (hheap _) h0 h1
  obtain ⟨d2, fs2, r2, c2, b2, s2⟩ := read_fat_root_directory_ok heap d1 fs1 (hheap _)
    (by rw [b1, c1]; exact h2)
  have hd : data_area_start_value fs2 = u32 (root_dir_start_value fs.boot_sector
      + ROOT_DIR_ENTRIES * sizeof FAT_DirEntry_members) := by
    rw [data_area_start_value, s2, b1]
  obtain ⟨d3, fs3, r3, s3⟩ := read_fat_data_area_ok heap d2 fs2 (hheap _)
    (by rw [hd, c2, c1]; exact h3)
  exact ⟨d1, fs1, d2, fs2, d3, fs3, r1, r2, r3, s1, by rw [s2, b1], by rw [s3, hd]⟩

/-- C8 (amended): for a geometry with `fat_size_large >= 1`, `fat_count >= 1` and offsets
that fit 32 bits, on an image that holds the three regions, the three readers return,
`root_dir_start` is at least the end of the table loaded by `read_fat_fat`
(`reserved_sectors * SECTOR_SIZE + fs->fat_size`), strictly greater when `fat_count >= 2`
and equal to it when `fat_count = 1`, and `data_area_start` is strictly greater than
`root_dir_start`. -/
theorem fat_regions_ordered (heap : Heap) (disk : FILE) (fs : FAT_FS)
    (hheap : ∀ n, heap.alloc n = true)
    (hfsl : 1 ≤ fs.boot_sector.fat_size_large) (hfc : 1 ≤ fs.boot_sector.fat_count)
    (hfit : (fs.boot_sector.reserved_sectors
        + fs.boot_sector.fat_size_large * fs.boot_sector.fat_count) * 512
        + 512 * 32 < 2 ^ 32)
    (hlen : (fs.boot_sector.reserved_sectors
        + fs.boot_sector.fat_size_large * fs.boot_sector.fat_count) * 512
        + 512 * 32 + 512 * 1024 ≤ disk.content.length) :
    ∃ d1 fs1 d2 fs2 d3 fs3,
      read_fat_fat heap disk fs = Outcome.returned d1 fs1 ∧
      read_fat_root_directory heap d1 fs1 = Outcome.returned d2 fs2 ∧
      read_fat_data_area heap d2 fs2 = Outcome.returned d3 fs3 ∧
      fs.boot_sector.reserved_sectors * SECTOR_SIZE + fs1.fat_size ≤ fs2.root_dir_start ∧
      (2 ≤ fs.boot_sector.fat_count →
        fs.boot_sector.reserved_sectors * SECTOR_SIZE + fs1.fat_size < fs2.root_dir_start) ∧
      (fs.boot_sector.fat_count = 1 →
        fs.boot_sector.reserved_sectors * SECTOR_SIZE + fs1.fat_size = fs2.root_dir_start) ∧
      fs2.root_dir_start < fs3.data_area_start := by
  have hS : SECTOR_SIZE = 512 := rfl
  have hE : ROOT_DIR_ENTRIES * sizeof FAT_DirEntry_members = 512 * 32 := by decide
  have hmul : fs.boot_sector.fat_size_large
      ≤ fs.boot_sector.fat_size_large * fs.boot_sector.fat_count :=
    Nat.le_mul_of_pos_right _ hfc
  have hrd : root_dir_start_value fs.boot_sector
      = (fs.boot_sector.reserved_sectors
        + fs.boot_sector.fat_size_large * fs.boot_sector.fat_count) * 512 := by
    rw [root_dir_start_value_eq, hS]
    exact Nat.mod_eq_of_lt (by omega)
  have hfs : fat_size_value fs.boot_sector = fs.boot_sector.fat_size_large * 512 := by
    rw [fat_size_value, hS]
    exact u32_of_lt _ (by omega)
  have hda : u32 (root_dir_start_value fs.boot_sector
      + ROOT_DIR_ENTRIES * sizeof FAT_DirEntry_members)
      = root_dir_start_value fs.boot_sector + 512 * 32 := by
    rw [hE]
    exact u32_of_lt _ (by omega)
  obtain ⟨d1, fs1, d2, fs2, d3, fs3, r1, r2, r3, s1, s2, s3⟩ :=
    fat_layout_runs heap disk fs hheap (by omega)
      (by rw [fat_start_value, hS]; omega) (by rw [hE]; omega) (by rw [hda, hS]; omega)
  refine ⟨d1, fs1, d2, fs2, d3, fs3, r1, r2, r3, ?_, ?_, ?_, ?_⟩
  · rw [s1, s2, hrd, hfs, hS]; omega
  · intro h2
    have : fs.boot_sector.fat_size_large * 2
        ≤ fs.boot_sector.fat_size_large * fs.boot_sector.fat_count :=
      Nat.mul_le_mul_left _ h2
    rw [s1, s2, hrd, hfs, hS]; omega
  · intro h1
    rw [s1, s2, hrd, hfs, hS, h1]; omega
  · rw [s2, s3, hda]; omega

theorem boot_image_length (a b c d e : Nat) : (boot_image a b c d e).length = 90 := by
  simp [boot_image, le_encode]

/-- C8 (amended), at the geometry of the scenario (512 / 1 / 1 / 2 / 9) on an image of
550400 bytes: the table ends at 5120, the directory starts at 9728, the data at 26112. -/
theorem fat_regions_ordered_witness :
    (∀ n, heap_all.alloc n = true) ∧
    1 ≤ (fat_fs_of (boot_image 512 1 1 2 9)).boot_sector.fat_size_large ∧
    1 ≤ (fat_fs_of (boot_image 512 1 1 2 9)).boot_sector.fat_count ∧
    (fopen (boot_image 512 1 1 2 9 ++ List.replicate 550310 0)).content.length = 550400 ∧
    ∃ d1 fs1 d2 fs2 d3 fs3,
      read_fat_fat heap_all (fopen (boot_image 512 1 1 2 9 ++ List.replicate 550310 0))
        (fat_fs_of (boot_image 512 1 1 2 9)) = Outcome.returned d1 fs1 ∧
      read_fat_root_directory heap_all d1 fs1 = Outcome.returned d2 fs2 ∧
      read_fat_data_area heap_all d2 fs2 = Outcome.returned d3 fs3 ∧
      (fat_fs_of (boot_image 512 1 1 2 9)).boot_sector.reserved_sectors * SECTOR_SIZE
        + fs1.fat_size < fs2.root_dir_start ∧
      fs2.root_dir_start < fs3.data_area_start := by
  have hl : (fopen (boot_image 512 1 1 2 9 ++ List.replicate 550310 0)).content.length
      = 550400 := by
    show (boot_image 512 1 1 2 9 ++ List.replicate 550310 (0 : UInt8)).length = 550400
    rw [List.length_append, List.length_replicate, boot_image_length]
  obtain ⟨d1, fs1, d2, fs2, d3, fs3, r1, r2, r3, -, hlt, -, hda⟩ :=
    fat_regions_ordered heap_all (fopen (boot_image 512 1 1 2 9 ++ List.replicate 550310 0))
      (fat_fs_of (boot_image 512 1 1 2 9)) (fun _ => rfl) (by decide) (by decide) (by decide)
      (by rw [hl]; decide)
  exact ⟨fun _ => rfl, by decide, by decide, hl,
    d1, fs1, d2, fs2, d3, fs3, r1, r2, r3, hlt (by decide), hda⟩

/-- C8 (counterexample): the geometry 512 / 1 / 1 with `fat_count = 1` and
`fat_size_large = 9` on an image of 545792 bytes. The readers return, the table loaded by
`read_fat_fat` ends at `1 * 512 + 4608 = 5120` and `root_dir_start` is 5120 as well, not
strictly greater. -/
theorem fat_regions_single_table :
    (fat_fs_of (boot_image 512 1 1 1 9)).boot_sector.bytes_per_sector = 512 ∧
    (fat_fs_of (boot_image 512 1 1 1 9)).boot_sector.fat_count = 1 ∧
    (fat_fs_of (boot_image 512 1 1 1 9)).boot_sector.fat_size_large = 9 ∧
    ∃ d1 fs1 d2 fs2 d3 fs3,
      read_fat_fat heap_all (fopen (boot_image 512 1 1 1 9 ++ List.replicate 545702 0))
        (fat_fs_of (boot_image 512 1 1 1 9)) = Outcome.returned d1 fs1 ∧
      read_fat_root_directory heap_all d1 fs1 = Outcome.returned d2 fs2 ∧
      read_fat_data_area heap_all d2 fs2 = Outcome.returned d3 fs3 ∧
      (fat_fs_of (boot_image 512 1 1 1 9)).boot_sector.reserved_sectors * SECTOR_SIZE
        + fs1.fat_size = 5120 ∧
      fs2.root_dir_start = 5120 ∧
      ¬ ((fat_fs_of (boot_image 512 1 1 1 9)).boot_sector.reserved_sectors * SECTOR_SIZE
        + fs1.fat_size < fs2.root_dir_start) := by
  have hl : (fopen (boot_image 512 1 1 1 9 ++ List.replicate 545702 0)).content.length
      = 545792 := by
    show (boot_image 512 1 1 1 9 ++ List.replicate 545702 (0 : UInt8)).length = 545792
    rw [List.length_append, List.length_replicate, boot_image_length]
  have hf : fat_size_value (fat_fs_of (boot_image 512 1 1 1 9)).boot_sector = 4608 := by decide
  have hr : root_dir_start_value (fat_fs_of (boot_image 512 1 1 1 9)).boot_sector = 5120 := by
    decide
  have hs : fat_start_value (fat_fs_of (boot_image 512 1 1 1 9)).boot_sector = 512 := by decide
  have hS : SECTOR_SIZE * 1024 = 524288 := by norm_num [SECTOR_SIZE]
  have hE : ROOT_DIR_ENTRIES * sizeof FAT_DirEntry_members = 16384 := by decide
  obtain ⟨d1, fs1, d2, fs2, d3, fs3, r1, r2, r3, s1, s2, -⟩ :=
    fat_layout_runs heap_all (fopen (boot_image 512 1 1 1 9 ++ List.replicate 545702 0))
      (fat_fs_of (boot_image 512 1 1 1 9)) (fun _ => rfl) (by rw [hf]; norm_num)
      (by rw [hf, hs, hl]; norm_num) (by rw [hr, hE, hl]; norm_num)
      (by rw [hr, hE, hS, hl]; decide)
  refine ⟨by decide, by decide, by decide, d1, fs1, d2, fs2, d3, fs3, r1, r2, r3, ?_, ?_, ?_⟩
  · rw [s1, hf]; decide
  · rw [s2, hr]
  · rw [s1, s2, hf, hr]; decide

/-! ## Reading a file -/

theorem start_cluster_eq (entry : FAT_DirEntry) :
    start_cluster entry = (entry.high_cluster <<< 16) ||| entry.low_cluster ∧
    start_cluster entry = entry.high_cluster * 2 ^ 16 + entry.low_cluster ∧
    start_cluster entry < 2 ^ 32 := by
  have hh : entry.high_cluster < 2 ^ 16 := by
    have h := member_lt FAT_DirEntry_members "high_cluster" entry.raw
    have hs : member_size FAT_DirEntry_members "high_cluster" = 2 := by decide
    rw [hs] at h
    exact h
  have hl : entry.low_cluster < 2 ^ 16 := by
    have h := member_lt FAT_DirEntry_members "low_cluster" entry.raw
    have hs : member_size FAT_DirEntry_members "low_cluster" = 2 := by decide
    rw [hs] at h
    exact h
  have hsh : entry.high_cluster <<< 16 = entry.high_cluster * 2 ^ 16 := Nat.shiftLeft_eq _ _
  have hu : u32 (entry.high_cluster <<< 16) = entry.high_cluster <<< 16 :=
    u32_of_lt _ (by rw [hsh]; omega)
  have hor : (entry.high_cluster <<< 16) ||| entry.low_cluster
      = entry.high_cluster * 2 ^ 16 + entry.low_cluster := by
    rw [hsh, Nat.mul_comm, ← Nat.mul_add_lt_is_or hl]
  refine ⟨?_, ?_, ?_⟩
  · rw [start_cluster, hu]
  · rw [start_cluster, hu, hor]
  · rw [start_cluster, hu, hor]; omega

theorem fat_file_offset_eq (fs : FAT_FS) (entry : FAT_DirEntry) :
    fat_file_offset fs entry
      = (fs.data_area_start + (start_cluster entry + (2 ^ 32 - 2))
          * fs.boot_sector.sectors_per_cluster * 512) % 2 ^ 32 := by
  have hsc := (start_cluster_eq entry).2.2
  have hsub : u32_sub (start_cluster entry) 2 = (start_cluster entry + (2 ^ 32 - 2)) % 2 ^ 32 := by
    simp only [u32_sub, u32]
    rw [Nat.mod_eq_of_lt hsc]
    norm_num
    congr 1
  rw [fat_file_offset, hsub]
  simp [u32, SECTOR_SIZE, Nat.mul_mod, Nat.add_mod]

theorem read_fat_file_calls (heap : Heap) (disk : FILE) (fs : FAT_FS) (entry : FAT_DirEntry)
    (hm : malloc heap entry.file_size = true) :
    (read_fat_file heap disk fs entry).disk.calls
      = disk.calls ++ [Call.fseek (fat_file_offset fs entry : Nat),
          Call.fread entry.file_size 1] := by
  have hu : u32 (fat_file_offset fs entry) = fat_file_offset fs entry :=
    u32_of_lt _ (u32_lt _)
  unfold read_fat_file
  simp only [hm, fseek_long_of_u32, hu]
  generalize hf : fread entry.file_size 1 _ = r
  have hc := congrArg (fun x => x.2.2.calls) hf
  simp only [fread_calls] at hc
  obtain ⟨buf, n, d⟩ := r
  by_cases hn : n = 1 <;> simp_all [handle_error, Outcome.disk]

theorem read_fat_file_returns (heap : Heap) (disk : FILE) (fs : FAT_FS) (entry : FAT_DirEntry)
    (hm : malloc heap entry.file_size = true) (h0 : 0 < entry.file_size)
    (hlen : fat_file_offset fs entry + entry.file_size ≤ disk.content.length) :
    read_fat_file heap disk fs entry
      = Outcome.returned
          ⟨disk.content, fat_file_offset fs entry + entry.file_size,
            disk.calls ++ [Call.fseek (fat_file_offset fs entry : Nat),
              Call.fread entry.file_size 1]⟩
          ((disk.content.drop (fat_file_offset fs entry)).take entry.file_size) := by
  have hu : u32 (fat_file_offset fs entry) = fat_file_offset fs entry :=
    u32_of_lt _ (u32_lt _)
  unfold read_fat_file
  simp only [hm, fseek_long_of_u32, hu]
  rw [fread_full _ _ h0 (by simpa using hlen)]
  simp

theorem read_fat_file_size_zero (heap : Heap) (disk : FILE) (fs : FAT_FS)
    (entry : FAT_DirEntry) (h : entry.file_size = 0) :
    (malloc heap 0 = false →
      read_fat_file heap disk fs entry
        = Outcome.exited disk "Memory allocation failed for file data") ∧
    (malloc heap 0 = true →
      read_fat_file heap disk fs entry
        = Outcome.exited
            ⟨disk.content, fat_file_offset fs entry,
              disk.calls ++ [Call.fseek (fat_file_offset fs entry : Nat), Call.fread 0 1]⟩
            "Error reading file data") := by
  have hu : u32 (fat_file_offset fs entry) = fat_file_offset fs entry :=
    u32_of_lt _ (u32_lt _)
  constructor
  · intro hm
    unfold read_fat_file
    simp [h, hm, handle_error]
  · intro hm
    unfold read_fat_file
    simp only [h, hm, fseek_long_of_u32, hu]
    simp [fread, handle_error]

/-- C2 (amended): `read_fat_file` computes `start_cluster = (high_cluster << 16) |
low_cluster` and seeks to `data_area_start + (start_cluster - 2) * sectors_per_cluster *
SECTOR_SIZE` evaluated in `uint32_t`, that is modulo `2 ^ 32` and with the constant
`SECTOR_SIZE = 512`. That is the exact offset of the claim whenever `bytes_per_sector`
is 512 and the exact offset lies in `[0, 2 ^ 32)`, start clusters 0 and 1 included. -/
theorem read_fat_file_offset (heap : Heap) (disk : FILE) (fs : FAT_FS) (entry : FAT_DirEntry)
    (hm : malloc heap entry.file_size = true) :
    start_cluster entry = (entry.high_cluster <<< 16) ||| entry.low_cluster ∧
    fat_file_offset fs entry
      = (fs.data_area_start + (start_cluster entry + (2 ^ 32 - 2))
          * fs.boot_sector.sectors_per_cluster * 512) % 2 ^ 32 ∧
    (read_fat_file heap disk fs entry).disk.calls
      = disk.calls ++ [Call.fseek (fat_file_offset fs entry : Nat),
          Call.fread entry.file_size 1] ∧
    (fs.boot_sector.bytes_per_sector = 512 →
      0 ≤ (fs.data_area_start : Int) + ((start_cluster entry : Int) - 2)
        * fs.boot_sector.sectors_per_cluster * fs.boot_sector.bytes_per_sector →
      (fs.data_area_start : Int) + ((start_cluster entry : Int) - 2)
        * fs.boot_sector.sectors_per_cluster * fs.boot_sector.bytes_per_sector < 2 ^ 32 →
      (fat_file_offset fs entry : Int)
        = (fs.data_area_start : Int) + ((start_cluster entry : Int) - 2)
          * fs.boot_sector.sectors_per_cluster * fs.boot_sector.bytes_per_sector) := by
  refine ⟨(start_cluster_eq entry).1, fat_file_offset_eq fs entry,
    read_fat_file_calls heap disk fs entry hm, ?_⟩
  intro hbps hlo hhi
  rw [hbps] at hlo hhi ⊢
  rw [fat_file_offset_eq]
  have hN : ((fs.data_area_start + (start_cluster entry + (2 ^ 32 - 2))
        * fs.boot_sector.sectors_per_cluster * 512 : Nat) : Int)
      = ((fs.data_area_start : Int) + ((start_cluster entry : Int) - 2)
          * fs.boot_sector.sectors_per_cluster * (512 : Nat))
        + 2 ^ 32 * ((fs.boot_sector.sectors_per_cluster : Int) * 512) := by
    push_cast
    ring
  rw [Int.natCast_mod, hN]
  have h32 : ((2 ^ 32 : Nat) : Int) = 2 ^ 32 := by norm_num
  rw [h32, Int.add_mul_emod_self_left]
  exact Int.emod_eq_of_lt hlo hhi

/-- C2 (amended), at start cluster 0 of the scenario geometry (`data_area_start = 26112`,
one 512-byte sector per cluster): the seek goes to `26112 - 2 * 512 = 25088`, the exact
offset. -/
theorem read_fat_file_offset_witness :
    malloc heap_all (dir_entry 0 0 100).file_size = true ∧
    start_cluster (dir_entry 0 0 100) = 0 ∧
    (read_fat_file heap_all (fopen [])
        (fat_fs_loaded (boot_image 512 1 1 2 9) 9728 26112) (dir_entry 0 0 100)).disk.calls
      = [Call.fseek 25088, Call.fread 100 1] ∧
    (fat_file_offset (fat_fs_loaded (boot_image 512 1 1 2 9) 9728 26112)
        (dir_entry 0 0 100) : Int)
      = ((fat_fs_loaded (boot_image 512 1 1 2 9) 9728 26112).data_area_start : Int)
        + ((start_cluster (dir_entry 0 0 100) : Int) - 2)
          * (fat_fs_loaded (boot_image 512 1 1 2 9) 9728 26112).boot_sector.sectors_per_cluster
          * (fat_fs_loaded (boot_image 512 1 1 2 9) 9728 26112).boot_sector.bytes_per_sector := by
  have h := read_fat_file_offset heap_all (fopen [])
    (fat_fs_loaded (boot_image 512 1 1 2 9) 9728 26112) (dir_entry 0 0 100) rfl
  refine ⟨rfl, by decide, ?_, h.2.2.2 (by decide) (by decide) (by decide)⟩
  rw [h.2.2.1]
  decide

/-- C2 (counterexample): with `bytes_per_sector = 512`, `sectors_per_cluster = 1`,
`data_area_start = 26112` and start cluster `(128 << 16) | 2 = 2 ^ 23 + 2` the function
seeks to 26112, not to `26112 + 2 ^ 23 * 512 = 26112 + 2 ^ 32`; with start cluster 0 and
`data_area_start = 0` it seeks to `2 ^ 32 - 1024`, not to the exact `-1024`; and with
`bytes_per_sector = 1024` and start cluster 3 it seeks to `26112 + 512`, not to
`26112 + 1024`. -/
theorem read_fat_file_offset_wraps :
    start_cluster (dir_entry 128 2 100) = 2 ^ 23 + 2 ∧
    seeks (read_fat_file heap_all (fopen [])
        (fat_fs_loaded (boot_image 512 1 1 2 9) 9728 26112) (dir_entry 128 2 100)).disk.calls
      = [26112] ∧
    (26112 : Int) ≠ (26112 : Int) + (((2 ^ 23 + 2 : Nat) : Int) - 2)
      * ((fat_fs_loaded (boot_image 512 1 1 2 9) 9728 26112).boot_sector.sectors_per_cluster : Nat)
      * ((fat_fs_loaded (boot_image 512 1 1 2 9) 9728 26112).boot_sector.bytes_per_sector : Nat) ∧
    start_cluster (dir_entry 0 0 100) = 0 ∧
    seeks (read_fat_file heap_all (fopen [])
        (fat_fs_loaded (boot_image 512 1 1 2 9) 0 0) (dir_entry 0 0 100)).disk.calls
      = [4294966272] ∧
    (4294966272 : Int) ≠ (0 : Int) + (((0 : Nat) : Int) - 2)
      * ((fat_fs_loaded (boot_image 512 1 1 2 9) 0 0).boot_sector.sectors_per_cluster : Nat)
      * ((fat_fs_loaded (boot_image 512 1 1 2 9) 0 0).boot_sector.bytes_per_sector : Nat) ∧
    (fat_fs_loaded (boot_image 1024 1 1 2 9) 9728 26112).boot_sector.bytes_per_sector = 1024 ∧
    seeks (read_fat_file heap_all (fopen [])
        (fat_fs_loaded (boot_image 1024 1 1 2 9) 9728 26112) (dir_entry 0 3 100)).disk.calls
      = [26624] ∧
    (26624 : Int) ≠ (26112 : Int) + (((3 : Nat) : Int) - 2)
      * ((fat_fs_loaded (boot_image 1024 1 1 2 9) 9728 26112).boot_sector.sectors_per_cluster : Nat)
      * ((fat_fs_loaded (boot_image 1024 1 1 2 9) 9728 26112).boot_sector.bytes_per_sector : Nat)
    := by
  decide

/-- C3: for an entry whose start cluster is 2 the offset `read_fat_file` seeks to is
`data_area_start`, whatever `sectors_per_cluster` is; and when the image holds
`file_size > 0` bytes from there (and the buffer is granted) the run returns and the
payload is exactly the `file_size` bytes that begin at `data_area_start`. -/
theorem read_fat_file_first_cluster (heap : Heap) (disk : FILE) (fs : FAT_FS)
    (entry : FAT_DirEntry) (hsc : start_cluster entry = 2)
    (hdas : fs.data_area_start < 2 ^ 32) :
    fat_file_offset fs entry = fs.data_area_start ∧
    (malloc heap entry.file_size = true →
      (read_fat_file heap disk fs entry).disk.calls
        = disk.calls ++ [Call.fseek (fs.data_area_start : Nat),
            Call.fread entry.file_size 1]) ∧
    (malloc heap entry.file_size = true → 0 < entry.file_size →
      fs.data_area_start + entry.file_size ≤ disk.content.length →
      ∃ d, read_fat_file heap disk fs entry
          = Outcome.returned d ((disk.content.drop fs.data_area_start).take entry.file_size) ∧
        ((disk.content.drop fs.data_area_start).take entry.file_size).length
          = entry.file_size ∧
        d.pos = fs.data_area_start + entry.file_size) := by
  have hoff : fat_file_offset fs entry = fs.data_area_start := by
    rw [fat_file_offset_eq, hsc]
    have h2 : (2 + (2 ^ 32 - 2)) * fs.boot_sector.sectors_per_cluster * 512
        = 2 ^ 32 * (fs.boot_sector.sectors_per_cluster * 512) := by ring
    rw [h2, Nat.add_mul_mod_self_left]
    exact Nat.mod_eq_of_lt hdas
  refine ⟨hoff, ?_, ?_⟩
  · intro hm
    rw [read_fat_file_calls heap disk fs entry hm, hoff]
  · intro hm h0 hlen
    have hrun := read_fat_file_returns heap disk fs entry hm h0 (by rw [hoff]; exact hlen)
    rw [hoff] at hrun
    exact ⟨_, hrun, by rw [List.length_take, List.length_drop]; omega, rfl⟩

/-- C3, at the entry of the scenario (`low_cluster = 2`, `file_size = 100`) with
`data_area_start = 9728 + 512 * 32 = 26112`, on an image whose bytes 26112 .. 26211 are
all 7: the payload is those 100 bytes. -/
theorem read_fat_file_first_cluster_witness :
    start_cluster (dir_entry 0 2 100) = 2 ∧
    (fat_fs_loaded (boot_image 512 1 1 2 9) 9728 26112).data_area_start = 9728 + 512 * 32 ∧
    (dir_entry 0 2 100).file_size = 100 ∧
    ∃ d, read_fat_file heap_all (fopen (List.replicate 26112 0 ++ List.replicate 100 7))
        (fat_fs_loaded (boot_image 512 1 1 2 9) 9728 26112) (dir_entry 0 2 100)
      = Outcome.returned d (List.replicate 100 7) := by
  have hsz : (dir_entry 0 2 100).file_size = 100 := by decide
  obtain ⟨-, -, hret⟩ := read_fat_file_first_cluster heap_all
    (fopen (List.replicate 26112 0 ++ List.replicate 100 7))
    (fat_fs_loaded (boot_image 512 1 1 2 9) 9728 26112) (dir_entry 0 2 100)
    (by decide) (by decide)
  obtain ⟨d, hrun, -, -⟩ := hret rfl (by rw [hsz]; norm_num) (by
    rw [hsz]
    show 26112 + 100 ≤ (List.replicate 26112 (0 : UInt8) ++ List.replicate 100 7).length
    rw [List.length_append, List.length_replicate, List.length_replicate])
  refine ⟨by decide, rfl, hsz, d, ?_⟩
  rw [hrun, hsz]
  show Outcome.returned d (List.take 100 (List.drop 26112
    (List.replicate 26112 (0 : UInt8) ++ List.replicate 100 7))) = _
  rw [List.drop_left' (List.length_replicate _ _), List.take_of_length_le (by
    rw [List.length_replicate])]

/-- C4 (the code at the failing input): on the zeroed `example_file` of `main`, whose
`file_size` is 0, `read_fat_file` never returns. For every image, geometry and allocator
it exits through `handle_error`: with "Error reading file data" when `malloc(0)` gives a
pointer (`fread` of 0 bytes reports 0 items), with "Memory allocation failed for file
data" when `malloc(0)` gives NULL. -/
theorem read_fat_file_example_file_exits :
    example_file.file_size = 0 ∧
    ∀ (heap : Heap) (disk : FILE) (fs : FAT_FS),
      (∀ d payload, read_fat_file heap disk fs example_file ≠ Outcome.returned d payload) ∧
      (malloc heap 0 = true →
        ∃ d, read_fat_file heap disk fs example_file
          = Outcome.exited d "Error reading file data") ∧
      (malloc heap 0 = false →
        read_fat_file heap disk fs example_file
          = Outcome.exited disk "Memory allocation failed for file data") := by
  have hz : example_file.file_size = 0 := by decide
  refine ⟨hz, fun heap disk fs => ?_⟩
  have h := read_fat_file_size_zero heap disk fs example_file hz
  refine ⟨?_, fun hm => ⟨_, h.2 hm⟩, h.1⟩
  intro d payload
  cases hm : malloc heap 0
  · rw [h.1 hm]; simp
  · rw [h.2 hm]; simp

/-! ## NTFS: the MFT record read and the cluster write -/

theorem long_of_u64_of_lt (n : Nat) (h : n < 2 ^ 63) : long_of_u64 n = (n : Int) := by
  have hu : u64 n = n := Nat.mod_eq_of_lt (by omega)
  unfold long_of_u64
  rw [hu, if_pos h]
  rfl

theorem long_of_u64_neg (n : Nat) (h : 2 ^ 63 ≤ u64 n) : long_of_u64 n < 0 := by
  have hu : u64 n < 2 ^ 64 := Nat.mod_lt _ (by norm_num)
  have hn : ¬ u64 n < 2 ^ 63 := by omega
  simp only [long_of_u64, hn, if_false, Int.ofNat_eq_coe]
  omega

theorem u64_idem (n : Nat) : u64 (u64 n) = u64 n := by
  simp [u64]

theorem mft_offset_eq (fs : NTFS_FS) (mft_index : Nat) :
    mft_offset fs mft_index
      = (fs.boot_sector.reserved_sectors * 512 + mft_index * 1024) % 2 ^ 64 := by
  simp [mft_offset, u64, SECTOR_SIZE, NTFS_MFT_RECORD_SIZE, Nat.add_mod]

theorem ntfs_reserved_sectors_lt (b : NTFS_BootSector) : b.reserved_sectors < 2 ^ 16 := by
  have h := member_lt NTFS_BootSector_members "reserved_sectors" b.raw
  have hs : member_size NTFS_BootSector_members "reserved_sectors" = 2 := by decide
  rw [hs] at h
  exact h

theorem mft_offset_zero (fs : NTFS_FS) : mft_offset fs 0 = mft_start_value fs.boot_sector := by
  have h := ntfs_reserved_sectors_lt fs.boot_sector
  have h1 := mft_offset_eq fs 0
  simp only [mft_start_value, SECTOR_SIZE]
  omega

theorem read_ntfs_file_calls (disk : FILE) (fs : NTFS_FS) (mft_index : Nat)
    (h : mft_offset fs mft_index < 2 ^ 63) :
    (read_ntfs_file disk fs mft_index).disk.calls
      = disk.calls ++ [Call.fseek (mft_offset fs mft_index : Nat),
          Call.fread (sizeof NTFS_MFT_Entry_members) 1] := by
  unfold read_ntfs_file
  simp only [long_of_u64_of_lt _ h, fseek_ofNat]
  generalize hf : fread (sizeof NTFS_MFT_Entry_members) 1 _ = r
  have hc := congrArg (fun x => x.2.2.calls) hf
  simp only [fread_calls] at hc
  obtain ⟨buf, n, d⟩ := r
  by_cases hn : n = 1 <;> simp_all [handle_error, Outcome.disk]

theorem read_ntfs_file_returns (disk : FILE) (fs : NTFS_FS) (mft_index : Nat)
    (h : mft_offset fs mft_index < 2 ^ 63)
    (hlen : mft_offset fs mft_index + sizeof NTFS_MFT_Entry_members ≤ disk.content.length) :
    read_ntfs_file disk fs mft_index
      = Outcome.returned
          ⟨disk.content, mft_offset fs mft_index + sizeof NTFS_MFT_Entry_members,
            disk.calls ++ [Call.fseek (mft_offset fs mft_index : Nat),
              Call.fread (sizeof NTFS_MFT_Entry_members) 1]⟩
          ⟨(disk.content.drop (mft_offset fs mft_index)).take
            (sizeof NTFS_MFT_Entry_members)⟩ := by
  unfold read_ntfs_file
  simp only [long_of_u64_of_lt _ h, fseek_ofNat]
  rw [fread_full _ _ (by decide) (by simpa using hlen)]
  simp

theorem read_ntfs_mft_calls (heap : Heap) (disk : FILE) (fs : NTFS_FS)
    (hm : malloc heap NTFS_MFT_SIZE = true) :
    (read_ntfs_mft heap disk fs).disk.calls
      = disk.calls ++ [Call.fseek (mft_start_value fs.boot_sector : Nat),
          Call.fread NTFS_MFT_SIZE 1] := by
  unfold read_ntfs_mft
  simp only [hm, Int.ofNat_eq_coe, fseek_ofNat]
  generalize hf : fread NTFS_MFT_SIZE 1 _ = r
  have hc := congrArg (fun x => x.2.2.calls) hf
  simp only [fread_calls] at hc
  obtain ⟨buf, n, d⟩ := r
  by_cases hn : n = 1 <;> simp_all [handle_error, Outcome.disk]

/-- C10 (amended): `read_ntfs_file` seeks to `reserved_sectors * SECTOR_SIZE + mft_index *
NTFS_MFT_RECORD_SIZE` evaluated in `uint64_t`, that is `(reserved_sectors * 512 +
mft_index * 1024) mod 2 ^ 64` with the constant `SECTOR_SIZE = 512`, and reads one
`NTFS_MFT_Entry` of 60 bytes there; the run returns that record when the image holds it.
The offset is the one of the claim when `bytes_per_sector` is 512 and the sum fits 64
bits, and for index 0 it is the offset at which `read_ntfs_mft` loads the MFT region. -/
theorem read_ntfs_file_offset (heap : Heap) (disk : FILE) (fs : NTFS_FS) (mft_index : Nat) :
    sizeof NTFS_MFT_Entry_members = 60 ∧ NTFS_MFT_RECORD_SIZE = 1024 ∧
    mft_offset fs mft_index
      = (fs.boot_sector.reserved_sectors * 512 + mft_index * 1024) % 2 ^ 64 ∧
    (mft_offset fs mft_index < 2 ^ 63 →
      (read_ntfs_file disk fs mft_index).disk.calls
        = disk.calls ++ [Call.fseek (mft_offset fs mft_index : Nat), Call.fread 60 1]) ∧
    (mft_offset fs mft_index < 2 ^ 63 →
      mft_offset fs mft_index + 60 ≤ disk.content.length →
      ∃ d, read_ntfs_file disk fs mft_index
          = Outcome.returned d ⟨(disk.content.drop (mft_offset fs mft_index)).take 60⟩ ∧
        d.pos = mft_offset fs mft_index + 60 ∧
        ((disk.content.drop (mft_offset fs mft_index)).take 60).length = 60) ∧
    (fs.boot_sector.bytes_per_sector = 512 →
      fs.boot_sector.reserved_sectors * 512 + mft_index * 1024 < 2 ^ 64 →
      mft_offset fs mft_index
        = fs.boot_sector.reserved_sectors * fs.boot_sector.bytes_per_sector
          + mft_index * NTFS_MFT_RECORD_SIZE) ∧
    (read_ntfs_file disk fs 0).disk.calls
      = disk.calls ++ [Call.fseek (mft_start_value fs.boot_sector : Nat), Call.fread 60 1] ∧
    (malloc heap NTFS_MFT_SIZE = true →
      (read_ntfs_mft heap disk fs).disk.calls
        = disk.calls ++ [Call.fseek (mft_start_value fs.boot_sector : Nat),
            Call.fread NTFS_MFT_SIZE 1]) := by
  have h60 : sizeof NTFS_MFT_Entry_members = 60 := sizeof_NTFS_MFT_Entry
  have hrs := ntfs_reserved_sectors_lt fs.boot_sector
  refine ⟨h60, rfl, mft_offset_eq fs mft_index, ?_, ?_, ?_, ?_, ?_⟩
  · intro h
    rw [read_ntfs_file_calls disk fs mft_index h, h60]
  · intro h hlen
    have hrun := read_ntfs_file_returns disk fs mft_index h (by rw [h60]; exact hlen)
    rw [h60] at hrun
    exact ⟨_, hrun, rfl, by rw [List.length_take, List.length_drop]; omega⟩
  · intro hbps hfit
    rw [mft_offset_eq, hbps, NTFS_MFT_RECORD_SIZE]
    exact Nat.mod_eq_of_lt hfit
  · have h0 : mft_offset fs 0 < 2 ^ 63 := by
      rw [mft_offset_zero, mft_start_value, SECTOR_SIZE]
      omega
    rw [read_ntfs_file_calls disk fs 0 h0, h60, mft_offset_zero]
  · intro hm
    exact read_ntfs_mft_calls heap disk fs hm

/-- C10 (amended), at record 3 of a volume with one reserved sector on an image of 4000
bytes: the record read is the 60 bytes at `512 + 3 * 1024 = 3584`. -/
theorem read_ntfs_file_offset_witness :
    mft_offset (ntfs_fs_of (boot_image 512 8 1 0 0)) 3 = 3584 ∧
    ∃ d, read_ntfs_file (fopen (List.replicate 4000 5)) (ntfs_fs_of (boot_image 512 8 1 0 0)) 3
        = Outcome.returned d
            ⟨((fopen (List.replicate 4000 5)).content.drop
              (mft_offset (ntfs_fs_of (boot_image 512 8 1 0 0)) 3)).take 60⟩ ∧
      d.pos = 3584 + 60 := by
  have hoff : mft_offset (ntfs_fs_of (boot_image 512 8 1 0 0)) 3 = 3584 := by decide
  obtain ⟨-, -, -, -, hret, -⟩ := read_ntfs_file_offset heap_all (fopen (List.replicate 4000 5))
    (ntfs_fs_of (boot_image 512 8 1 0 0)) 3
  obtain ⟨d, hrun, hpos, -⟩ := hret (by rw [hoff]; norm_num) (by
    rw [hoff]
    show 3584 + 60 ≤ (List.replicate 4000 (5 : UInt8)).length
    rw [List.length_replicate]
    norm_num)
  exact ⟨hoff, d, hrun, by rw [hpos, hoff]⟩

/-- C10 (counterexample): with `bytes_per_sector = 4096` and `reserved_sectors = 1` the
record 0 is looked for at 512, not at `1 * 4096 + 0 * 1024 = 4096`; and with
`bytes_per_sector = 512`, `reserved_sectors = 1` and index `2 ^ 54` the seek goes to 512,
not to `512 + 2 ^ 64`; with `reserved_sectors = 0` and index `2 ^ 53` the offset `2 ^ 63`
reaches `fseek` as the negative `long` `-2 ^ 63` and the run exits on the seek. -/
theorem read_ntfs_file_ignores_bytes_per_sector :
    (ntfs_fs_of (boot_image 4096 8 1 0 0)).boot_sector.bytes_per_sector = 4096 ∧
    (ntfs_fs_of (boot_image 4096 8 1 0 0)).boot_sector.reserved_sectors = 1 ∧
    seeks (read_ntfs_file (fopen []) (ntfs_fs_of (boot_image 4096 8 1 0 0)) 0).disk.calls
      = [512] ∧
    seeks (read_ntfs_file (fopen []) (ntfs_fs_of (boot_image 4096 8 1 0 0)) 0).disk.calls
      ≠ [(((ntfs_fs_of (boot_image 4096 8 1 0 0)).boot_sector.reserved_sectors
          * (ntfs_fs_of (boot_image 4096 8 1 0 0)).boot_sector.bytes_per_sector
          + 0 * NTFS_MFT_RECORD_SIZE : Nat) : Int)] ∧
    (ntfs_fs_of (boot_image 512 8 1 0 0)).boot_sector.bytes_per_sector = 512 ∧
    seeks (read_ntfs_file (fopen []) (ntfs_fs_of (boot_image 512 8 1 0 0))
        (2 ^ 54)).disk.calls = [512] ∧
    seeks (read_ntfs_file (fopen []) (ntfs_fs_of (boot_image 512 8 1 0 0))
        (2 ^ 54)).disk.calls
      ≠ [(((ntfs_fs_of (boot_image 512 8 1 0 0)).boot_sector.reserved_sectors
          * (ntfs_fs_of (boot_image 512 8 1 0 0)).boot_sector.bytes_per_sector
          + 2 ^ 54 * NTFS_MFT_RECORD_SIZE : Nat) : Int)] ∧
    read_ntfs_file (fopen []) (ntfs_fs_of (boot_image 512 8 0 0 0)) (2 ^ 53)
      = Outcome.exited ⟨[], 0, [Call.fseek (-2 ^ 63)]⟩ "Error seeking to MFT record" := by
  decide

theorem fwrite_full (s : FILE) (data : List UInt8) (size : Nat) (h0 : 0 < size)
    (hlen : data.length = size) :
    ∃ content, fwrite data size 1 s
        = (1, ⟨content, s.pos + size, s.calls ++ [Call.fwrite size 1]⟩) ∧
      (content.drop s.pos).take size = data ∧
      content.length = max s.content.length (s.pos + size) := by
  have htake : data.take (size * 1) = data := by
    rw [Nat.mul_one, ← hlen, List.take_length]
  have hold : s.pos ≤ (s.content ++ List.replicate (s.pos - s.content.length) 0).length := by
    rw [List.length_append, List.length_replicate]
    omega
  have hpre : ((s.content ++ List.replicate (s.pos - s.content.length) 0).take s.pos).length
      = s.pos := by
    rw [List.length_take]
    omega
  refine ⟨(s.content ++ List.replicate (s.pos - s.content.length) 0).take s.pos ++ data
    ++ (s.content ++ List.replicate (s.pos - s.content.length) 0).drop (s.pos + data.length),
    ?_, ?_, ?_⟩
  · simp only [fwrite, htake, hlen, Nat.pos_iff_ne_zero.mp h0, if_false, Nat.div_self h0]
  · rw [List.append_assoc, List.drop_left' hpre, List.take_left' hlen]
  · simp only [List.length_append, List.length_take, List.length_drop, List.length_replicate]
    omega

theorem write_ntfs_file_returns (disk : FILE) (c : Nat) (data : List UInt8)
    (hlen : data.length = NTFS_CLUSTER_SIZE) (h : u64 (c * NTFS_CLUSTER_SIZE) < 2 ^ 63) :
    ∃ d, write_ntfs_file disk c data NTFS_CLUSTER_SIZE = Outcome.returned d () ∧
      (d.content.drop (u64 (c * NTFS_CLUSTER_SIZE))).take NTFS_CLUSTER_SIZE = data ∧
      d.content.length
        = max disk.content.length (u64 (c * NTFS_CLUSTER_SIZE) + NTFS_CLUSTER_SIZE) := by
  obtain ⟨content, hw, hslice, hl⟩ := fwrite_full
    ⟨disk.content, u64 (c * NTFS_CLUSTER_SIZE),
      disk.calls ++ [Call.fseek (u64 (c * NTFS_CLUSTER_SIZE) : Nat)]⟩
    data NTFS_CLUSTER_SIZE (by decide) hlen
  refine ⟨⟨content, u64 (c * NTFS_CLUSTER_SIZE) + NTFS_CLUSTER_SIZE,
    disk.calls ++ [Call.fseek (u64 (c * NTFS_CLUSTER_SIZE) : Nat)]
      ++ [Call.fwrite NTFS_CLUSTER_SIZE 1]⟩, ?_, hslice, hl⟩
  unfold write_ntfs_file
  simp only [u64_idem, long_of_u64_of_lt _ h, fseek_ofNat]
  rw [hw]
  simp

theorem write_ntfs_file_seek_fails (disk : FILE) (c : Nat) (data : List UInt8) (size : Nat)
    (h : 2 ^ 63 ≤ u64 (c * NTFS_CLUSTER_SIZE)) :
    ∃ d, write_ntfs_file disk c data size = Outcome.exited d "Error seeking to file data" := by
  have hneg := long_of_u64_neg (u64 (c * NTFS_CLUSTER_SIZE)) (by rw [u64_idem]; exact h)
  unfold write_ntfs_file
  simp [fseek, hneg, handle_error]

/-- C7 (amended): for a buffer of exactly `NTFS_CLUSTER_SIZE = 4096` bytes,
`write_ntfs_file(c, buffer, 4096)` returns whenever the `uint64_t` product
`c * 4096 mod 2 ^ 64` is a non-negative `long`, and whenever it returns, reading 4096
bytes of the resulting image at offset `c * 4096 mod 2 ^ 64` gives back exactly the
buffer; that offset is `c * 4096` itself for every `c < 2 ^ 52`. -/
theorem write_ntfs_file_round_trip (disk : FILE) (c : Nat) (data : List UInt8)
    (hlen : data.length = NTFS_CLUSTER_SIZE) :
    NTFS_CLUSTER_SIZE = 4096 ∧
    (u64 (c * NTFS_CLUSTER_SIZE) < 2 ^ 63 →
      ∃ d, write_ntfs_file disk c data NTFS_CLUSTER_SIZE = Outcome.returned d ()) ∧
    (∀ d, write_ntfs_file disk c data NTFS_CLUSTER_SIZE = Outcome.returned d () →
      (d.content.drop (u64 (c * NTFS_CLUSTER_SIZE))).take NTFS_CLUSTER_SIZE = data ∧
      (fread NTFS_CLUSTER_SIZE 1 (fseek d (u64 (c * NTFS_CLUSTER_SIZE) : Nat)).2).1 = data ∧
      (fread NTFS_CLUSTER_SIZE 1 (fseek d (u64 (c * NTFS_CLUSTER_SIZE) : Nat)).2).2.1 = 1 ∧
      (c < 2 ^ 52 →
        (d.content.drop (c * NTFS_CLUSTER_SIZE)).take NTFS_CLUSTER_SIZE = data)) := by
  refine ⟨rfl, ?_, ?_⟩
  · intro h
    obtain ⟨d, hrun, -, -⟩ := write_ntfs_file_returns disk c data hlen h
    exact ⟨d, hrun⟩
  · intro d hd
    by_cases h : u64 (c * NTFS_CLUSTER_SIZE) < 2 ^ 63
    · obtain ⟨d0, hrun, hslice, -⟩ := write_ntfs_file_returns disk c data hlen h
      rw [hrun] at hd
      simp only [Outcome.returned.injEq, and_true] at hd
      subst hd
      have hread : (fread NTFS_CLUSTER_SIZE 1
          (fseek d0 (u64 (c * NTFS_CLUSTER_SIZE) : Nat)).2).1 = data := by
        rw [fseek_ofNat]
        simpa [fread] using hslice
      refine ⟨hslice, hread, ?_, ?_⟩
      · have hcount : (fread NTFS_CLUSTER_SIZE 1
            (fseek d0 (u64 (c * NTFS_CLUSTER_SIZE) : Nat)).2).2.1
            = (fread NTFS_CLUSTER_SIZE 1
                (fseek d0 (u64 (c * NTFS_CLUSTER_SIZE) : Nat)).2).1.length
              / NTFS_CLUSTER_SIZE := by
          simp [fread, NTFS_CLUSTER_SIZE]
        rw [hcount, hread, hlen]
        rfl
      · intro hc
        have hu : u64 (c * NTFS_CLUSTER_SIZE) = c * NTFS_CLUSTER_SIZE := by
          simp only [u64, NTFS_CLUSTER_SIZE]
          omega
        rw [← hu]
        exact hslice
    · obtain ⟨d1, hex⟩ := write_ntfs_file_seek_fails disk c data NTFS_CLUSTER_SIZE (by omega)
      rw [hex] at hd
      simp at hd

/-- C7 (amended), at cluster 1 of an image of 10000 bytes. -/
theorem write_ntfs_file_round_trip_witness :
    (List.replicate 4096 (9 : UInt8)).length = NTFS_CLUSTER_SIZE ∧
    ∃ d, write_ntfs_file (fopen (List.replicate 10000 0)) 1 (List.replicate 4096 9)
        NTFS_CLUSTER_SIZE = Outcome.returned d () ∧
      (d.content.drop (1 * NTFS_CLUSTER_SIZE)).take NTFS_CLUSTER_SIZE
        = List.replicate 4096 9 := by
  have hl : (List.replicate 4096 (9 : UInt8)).length = NTFS_CLUSTER_SIZE :=
    List.length_replicate _ _
  obtain ⟨-, hret, hall⟩ := write_ntfs_file_round_trip (fopen (List.replicate 10000 0)) 1
    (List.replicate 4096 9) hl
  obtain ⟨d, hrun⟩ := hret (by decide)
  exact ⟨hl, d, hrun, (hall d hrun).2.2.2 (by norm_num)⟩

/-- C7 (counterexample): for `c = 2 ^ 52` the product `c * 4096 = 2 ^ 64` wraps to 0 in
`uint64_t`. The write succeeds and lands at offset 0; the resulting image is 4096 bytes
long, and reading at offset `c * 4096` does not give back the buffer. -/
theorem write_ntfs_file_cluster_wraps :
    ∃ d, write_ntfs_file (fopen []) (2 ^ 52) (List.replicate 4096 1) NTFS_CLUSTER_SIZE
        = Outcome.returned d () ∧
      d.content.length = 4096 ∧
      (d.content.drop (2 ^ 52 * NTFS_CLUSTER_SIZE)).take NTFS_CLUSTER_SIZE
        ≠ List.replicate 4096 1 := by
  have hu : u64 (2 ^ 52 * NTFS_CLUSTER_SIZE) = 0 := by decide
  obtain ⟨d, hrun, -, hl⟩ := write_ntfs_file_returns (fopen []) (2 ^ 52)
    (List.replicate 4096 1) (List.length_replicate _ _) (by rw [hu]; norm_num)
  have hl2 : d.content.length = 4096 := by
    rw [hl, hu]
    rfl
  refine ⟨d, hrun, hl2, ?_⟩
  rw [List.drop_eq_nil_of_le (by rw [hl2]; decide)]
  intro h
  have h2 := congrArg List.length h
  rw [List.length_replicate] at h2
  simp at h2

end Fs
